import Mathlib

/-!
# Verification of the CAPM agentic-RAG core

A shallow embedding, in Lean 4, of the retrieval and scoring core of the
`SK2252/capm` repository (files `srv/lib/agentic-rag.js`,
`srv/lib/gen-ai-service.js`, and the agent modules `base-agent`,
`packaging-agent`, `emission-agent`, `supply-chain-agent`,
`regulatory-agent`), together with theorems settling the specification
claims about chunking, embedding, cosine similarity, top-K retrieval,
aggregate confidence, agent routing, input validation and per-agent
insight generation.

Modelling conventions:
* JS strings are modelled as `List Char` in the text-processing layer
  (chunking, embedding) and as `String` in the agent layer.
* JS numbers are modelled as `ℚ` in the agent layer (all agent arithmetic
  is closed-form rational) and as `ℝ` in the cosine-similarity layer
  (where `Math.sqrt` occurs).
* JS `Date` values are modelled by a `JsClock` record carrying the epoch
  milliseconds and the calendar year of `new Date()`.
* Absent object fields are `Option.none`; JS truthiness of a field is
  modelled explicitly (`0`, `""` and absent are falsy).
* `Array.prototype.sort` (stable, per ECMAScript 2019) is modelled by
  `List.mergeSort`.
-/

/-! ## Text utilities (JS string primitives used by `agentic-rag.js`) -/

/-- The sentence separators of `splitText`: the regex class `[.!?]`. -/
def isSentenceSep (c : Char) : Bool :=
  c = '.' || c = '!' || c = '?'

/-- A JS word character (regex `\w`): ASCII letter, digit or underscore.
`split(/\W+/)` splits on maximal runs of non-word characters. -/
def isWordChar (c : Char) : Bool :=
  c.isAlphanum || c = '_'

/-- `String.prototype.trim`: remove leading and trailing whitespace. -/
def jsTrim (l : List Char) : List Char :=
  ((l.dropWhile Char.isWhitespace).reverse.dropWhile Char.isWhitespace).reverse

/-- `text.split(/[X]+/)` for a character class `X` given by `sep`:
split on maximal runs of separator characters, keeping empty fields at
the boundaries (JS regex-split semantics). -/
def splitRuns (sep : Char → Bool) : List Char → List (List Char)
  | [] => [[]]
  | c :: cs =>
    let r := splitRuns sep cs
    if sep c then
      match cs with
      | [] => [] :: r
      | c2 :: _ => if sep c2 then r else [] :: r
    else
      match r with
      | [] => [[c]]
      | s :: ss => (c :: s) :: ss

/-- `text.split(c)` for a single character: split at every occurrence,
keeping empty fields (JS string-split semantics). -/
def splitChar (sc : Char) : List Char → List (List Char)
  | [] => [[]]
  | c :: cs =>
    if c = sc then
      [] :: splitChar sc cs
    else
      match splitChar sc cs with
      | [] => [[c]]
      | s :: ss => (c :: s) :: ss

/-- `words.join(' ')`. -/
def joinSpace (ws : List (List Char)) : List Char :=
  List.intercalate [' '] ws

/-- `text.toLowerCase()` (character-wise). -/
def lowerChars (l : List Char) : List Char :=
  l.map Char.toLower

/-- `haystack.includes(needle)` on character lists (JS substring test). -/
def containsSeq (needle : List Char) : List Char → Bool
  | [] => needle.isEmpty
  | c :: t => needle.isPrefixOf (c :: t) || containsSeq needle t

/-! ## Chunking (`AgenticRAGSystem.splitText`) -/

/-- The sentence list of `splitText`:
`text.split(/[.!?]+/).filter(s => s.trim().length > 0)`. -/
def sentencesOf (text : List Char) : List (List Char) :=
  (splitRuns isSentenceSep text).filter (fun s => 0 < (jsTrim s).length)

/-- The overlap seed of `splitText`:
`currentChunk.split(' ').slice(-Math.floor(chunkOverlap / 10))`.
JS `slice(-0)` is `slice(0)`, so when `chunkOverlap / 10 = 0` the seed is
the whole word list, not the empty list. -/
def overlapWords (chunkOverlap : ℕ) (cur : List Char) : List (List Char) :=
  let words := splitChar ' ' cur
  let n := chunkOverlap / 10
  if n = 0 then words else words.drop (words.length - n)

/-- The sentence-accumulation loop of `splitText`.  `cur` is
`currentChunk`; a chunk is closed (pushed, trimmed) when appending the
next sentence would exceed `chunkSize` and `currentChunk` is non-empty,
and the next chunk is seeded with the overlap words joined by spaces
followed by the sentence.  Otherwise the sentence is appended with a
single separating space (none when `currentChunk` is empty). -/
def splitTextGo (chunkSize chunkOverlap : ℕ) :
    List (List Char) → List Char → List (List Char)
  | [], cur => if jsTrim cur = [] then [] else [jsTrim cur]
  | s :: rest, cur =>
    if (cur ++ s).length > chunkSize ∧ 0 < cur.length then
      jsTrim cur ::
        splitTextGo chunkSize chunkOverlap rest
          (joinSpace (overlapWords chunkOverlap cur) ++ ' ' :: s)
    else
      splitTextGo chunkSize chunkOverlap rest
        (if cur = [] then s else cur ++ ' ' :: s)

/-- `AgenticRAGSystem.splitText(text, chunkSize, chunkOverlap)`. -/
def splitText (text : List Char) (chunkSize chunkOverlap : ℕ) :
    List (List Char) :=
  splitTextGo chunkSize chunkOverlap (sentencesOf text) []

/-- The chunk text accumulated by the `splitText` loop when no chunk is
ever closed: each sentence is appended with a single separating space
(none onto an empty accumulator).  Used to state the single-chunk
property of the chunker. -/
def accJoin : List Char → List (List Char) → List Char
  | cur, [] => cur
  | cur, s :: rest => accJoin (if cur = [] then s else cur ++ ' ' :: s) rest

/-! ## Embedding (`AgenticRAGSystem.createSimpleEmbedding`) -/

/-- The hard-coded vocabulary of domain stems of
`createSimpleEmbedding` (`sustainabilityTerms`), in source order. -/
def sustainabilityTerms : List (List Char) :=
  ["packaging".toList, "emission".toList, "carbon".toList, "recycl".toList,
   "sustain".toList, "environment".toList, "plastic".toList, "bottle".toList,
   "aluminum".toList, "glass".toList, "transport".toList, "energy".toList,
   "target".toList, "goal".toList, "reduction".toList, "footprint".toList,
   "circular".toList, "regulation".toList]

/-- `createSimpleEmbedding(text)`: lower-case the text, split on `\W+`,
keep words longer than 2 characters, and for each domain stem count the
words containing the stem as a substring.  (The `wordFreq` table computed
by the source is dead code and is omitted.) -/
def createSimpleEmbedding (text : List Char) : List ℕ :=
  let words :=
    (splitRuns (fun c => !isWordChar c) (lowerChars text)).filter
      (fun w => 2 < w.length)
  sustainabilityTerms.map (fun term => (words.filter (fun w => containsSeq term w)).length)

/-! ## Cosine similarity (`AgenticRAGSystem.cosineSimilarity`) -/

/-- The dot-product accumulator of `cosineSimilarity`. -/
def dotProduct (a b : List ℝ) : ℝ :=
  (List.zipWith (· * ·) a b).sum

/-- The squared-norm accumulators `normA` / `normB` of
`cosineSimilarity` (sum of squares, before the square root). -/
def sumSquares (a : List ℝ) : ℝ :=
  (a.map (fun x => x * x)).sum

/-- `cosineSimilarity(vecA, vecB)`: `0` on length mismatch, `0` when
either squared norm is `0`, otherwise
`dotProduct / (sqrt(normA) * sqrt(normB))`. -/
noncomputable def cosineSimilarity (vecA vecB : List ℝ) : ℝ :=
  if vecA.length ≠ vecB.length then 0
  else if sumSquares vecA = 0 ∨ sumSquares vecB = 0 then 0
  else dotProduct vecA vecB / (Real.sqrt (sumSquares vecA) * Real.sqrt (sumSquares vecB))

/-- The embedding of a text, cast to `ℝ` for similarity computations. -/
noncomputable def embedReal (text : List Char) : List ℝ :=
  (createSimpleEmbedding text).map (fun n : ℕ => (n : ℝ))

/-! ## Similarity index and retrieval (`AgenticRAGSystem.queryKnowledge`) -/

/-- One stored chunk of the vector store (`documentChunks` entry):
content, bag-of-stems embedding, and the source file name.  The md5
`chunkId` of the source is replaced by the insertion position, which is
what identifies an entry in the `Map` iteration order. -/
structure KnowledgeChunk where
  content : List Char
  embedding : List ℕ
  source : String
deriving DecidableEq

/-- `initializeVectorStore`: chunk every knowledge-base document with
`splitText` and embed each chunk (`RAG_CHUNK_SIZE` default 1000,
`RAG_CHUNK_OVERLAP` default 200). -/
def buildVectorStore (kb : List (String × List Char))
    (chunkSize chunkOverlap : ℕ) : List KnowledgeChunk :=
  kb.flatMap (fun fc =>
    (splitText fc.2 chunkSize chunkOverlap).map
      (fun ch => ⟨ch, createSimpleEmbedding ch, fc.1⟩))

/-- The mutable state of `AgenticRAGSystem` relevant to retrieval: the
loaded knowledge base and the vector store built from it. -/
structure RAGState where
  knowledgeBase : List (String × List Char)
  vectorStore : List KnowledgeChunk

/-- One entry of the `similarities` array of `queryKnowledge`, tagged
with its insertion position `idx` in the vector store. -/
structure SimilarityEntry where
  idx : ℕ
  similarity : ℝ
  content : List Char
  source : String

/-- The similarity list of `queryKnowledge`: cosine similarity of the
query embedding against every stored chunk, in insertion order. -/
noncomputable def scoreEntries (store : List KnowledgeChunk) (q : List Char) :
    List SimilarityEntry :=
  store.enum.map (fun p =>
    ⟨p.1, cosineSimilarity (embedReal q) (p.2.embedding.map (fun n : ℕ => (n : ℝ))),
     p.2.content, p.2.source⟩)

/-- The comparator of `queryKnowledge`:
`(a, b) => b.similarity - a.similarity` sorts descending by similarity;
as a stable-sort precedence test this is `b.similarity ≤ a.similarity`. -/
noncomputable def simLE (a b : SimilarityEntry) : Bool :=
  decide (b.similarity ≤ a.similarity)

/-- `calculateConfidence(results)`: `0` for an empty result list,
otherwise the mean similarity clamped by
`Math.min(0.95, Math.max(0.1, avg))`. -/
noncomputable def calculateConfidence (results : List SimilarityEntry) : ℝ :=
  if results.length = 0 then 0
  else
    min 0.95 (max 0.1 ((results.map (fun r => r.similarity)).sum / results.length))

/-- The output of `queryKnowledge`: ranked results (kept for analysis;
the source keeps them in `results`), the joined context, the source
metadata, and the aggregate confidence. -/
structure QueryKnowledgeResult where
  results : List SimilarityEntry
  context : List Char
  sources : List String
  confidence : ℝ

/-- The store `queryKnowledge` works on: the current vector store, or
the one lazily rebuilt from the loaded knowledge base when it is empty
(`if (this.vectorStore.size === 0) await this.initializeVectorStore()`). -/
def storeOf (st : RAGState) : List KnowledgeChunk :=
  if st.vectorStore.isEmpty then buildVectorStore st.knowledgeBase 1000 200
  else st.vectorStore

/-- `queryKnowledge(query, agentType, topK)`: lazily rebuild the vector
store when it is empty, score every chunk, sort descending by similarity
(stable), truncate to `topK`, and aggregate. -/
noncomputable def queryKnowledge (st : RAGState) (q : List Char) (topK : ℕ) :
    QueryKnowledgeResult :=
  let results := ((scoreEntries (storeOf st) q).mergeSort simLE).take topK
  { results := results
    context := List.intercalate ['\n', '\n'] (results.map (fun r => r.content))
    sources := results.map (fun r => r.source)
    confidence := calculateConfidence results }

/-! ## Query orchestration (`AgenticRAGSystem.processQuery`,
`BaseAgent.processQuery`) -/

/-- The keys of the `agents` map built by `initializeAgents`. -/
def validAgentKeys : List String :=
  ["packaging", "emission", "supplyChain", "regulatory"]

/-- `BaseAgent.buildPrompt(query, context)` (the template shared by all
agents in `agentic-rag.js`). -/
def baseBuildPrompt (query context : List Char) : List Char :=
  "\nContext Information about CCEP Sustainability:\n".toList ++ context ++
  "\n\nUser Query: ".toList ++ query ++
  ("\n\nPlease provide a comprehensive answer based on the context information above. \n"
    ++ "Focus on CCEP\x27s sustainability goals:\n"
    ++ "- 30% GHG emission reduction by 2030\n"
    ++ "- 100% recyclable packaging by 2025  \n"
    ++ "- 50% recycled content in PET bottles by 2025\n"
    ++ "- Packaging accounts for 38% of carbon footprint\n"
    ++ "- Collection rates: Europe 76.7%, Asia Pacific 53%\n\n"
    ++ "Provide actionable insights and specific recommendations.\n").toList

/-- The per-agent system prompt (`getSystemPrompt`), abridged to its
opening line: the prompt text is passed opaquely to the external LLM
collaborator and no claim depends on its wording. -/
def agentSystemPrompt (key : String) : String :=
  if key = "packaging" then "You are a packaging sustainability expert for CCEP."
  else if key = "emission" then "You are a carbon emissions expert for CCEP."
  else if key = "supplyChain" then "You are a sustainable supply chain expert for CCEP."
  else if key = "regulatory" then "You are a regulatory compliance expert for CCEP."
  else "You are a specialized AI agent for CCEP sustainability analytics."

/-- The external LLM collaborator (`model.generateContent`): it receives
the system prompt and the grounded user prompt and either returns the
generated text or fails (timeout, provider error, malformed response). -/
def LLMCollaborator : Type :=
  String → List Char → Except String (List Char)

/-- The result of `BaseAgent.processQuery`. -/
structure AgentAnswer where
  answer : List Char
  confidence : ℝ

/-- `BaseAgent.processQuery(query, knowledge)`: build the grounded
prompt, call the LLM; on success pair the text with the retrieval
confidence, on failure log and rethrow (`catch ... throw error`). -/
noncomputable def agentProcessQuery (llm : LLMCollaborator) (key : String)
    (query : List Char) (knowledge : QueryKnowledgeResult) :
    Except String AgentAnswer :=
  match llm (agentSystemPrompt key) (baseBuildPrompt query knowledge.context) with
  | Except.ok text => Except.ok ⟨text, knowledge.confidence⟩
  | Except.error e => Except.error e

/-- The terminal output of `AgenticRAGSystem.processQuery` (the
`timestamp` field, `new Date().toISOString()`, is omitted: no claim
reads it). -/
structure QueryResponse where
  response : List Char
  confidence : ℝ
  sources : List String
  agentType : String

/-- `AgenticRAGSystem.processQuery(query, agentType)`: look the agent up
in the fixed `agents` map (throwing `Unknown agent type` otherwise),
retrieve knowledge, delegate to the agent, and assemble the response; a
failure anywhere is logged and rethrown (`catch ... throw error`). -/
noncomputable def processQuery (st : RAGState) (query : List Char)
    (agentType : String) (llm : LLMCollaborator) :
    Except String QueryResponse :=
  if agentType ∈ validAgentKeys then
    let knowledge := queryKnowledge st query 5
    match agentProcessQuery llm agentType query knowledge with
    | Except.ok r =>
        Except.ok ⟨r.answer, r.confidence, knowledge.sources, agentType⟩
    | Except.error e => Except.error e
  else
    Except.error ("Unknown agent type: " ++ agentType)

/-! ## Agent routing -/

/-- `AgenticRAGSystem.getAgentForAnalysis(analysisType)` (from
`agentic-rag.js`): the fixed `agentMap` keyed by
`packaging`/`emissions`/`supply_chain`/`regulatory`, falling back to the
packaging agent.  The returned agent is identified by its
specialization. -/
def getAgentForAnalysis (analysisType : String) : String :=
  if analysisType = "packaging" then "packaging"
  else if analysisType = "emissions" then "emission"
  else if analysisType = "supply_chain" then "supplyChain"
  else if analysisType = "regulatory" then "regulatory"
  else "packaging"

/-- Modelled from the spec: the keyword classifier of the query router
(`selectAgent`), which is absent from the sources (only its tests exist);
spec section 4.3: each specialization owns a keyword set (regulatory:
"regulat", "complian", "law"; supplyChain: "supplier", "supply chain";
emission: "emission", "carbon", "ghg"), scanned in this fixed priority
order over the lower-cased query; no match means no classification. -/
def classifyQuery (text : String) : Option String :=
  let t := lowerChars text.toList
  if containsSeq "regulat".toList t || containsSeq "complian".toList t
      || containsSeq "law".toList t then some "regulatory"
  else if containsSeq "supplier".toList t || containsSeq "supply chain".toList t then
    some "supplyChain"
  else if containsSeq "emission".toList t || containsSeq "carbon".toList t
      || containsSeq "ghg".toList t then some "emission"
  else none

/-- Modelled from the spec: the router contract
`route(agentTypeHint?, queryText?)` of spec section 4.3: an exact valid
hint wins, otherwise the query text is classified by keywords, and
unclassified queries fall back to the designated default `packaging`. -/
def routeQuery (hint : Option String) (text : String) : String :=
  match hint with
  | some h => if h ∈ validAgentKeys then h else (classifyQuery text).getD "packaging"
  | none => (classifyQuery text).getD "packaging"

/-! ## JS number rendering (template-literal interpolation) -/

/-- Decimal digits of the fraction `r / d` (with `r < d`), emitted until
the remainder vanishes, capped by the fuel (12 suffices for every datum
appearing in the claims; JS prints the shortest round-trip float). -/
def fracDigits : ℕ → ℕ → ℕ → List Char
  | 0, _, _ => []
  | _, 0, _ => []
  | fuel + 1, r, d =>
    let r10 := r * 10
    Char.ofNat (48 + (r10 / d) % 10) :: fracDigits fuel (r10 % d) d

/-- JS `${number}` rendering of a rational with terminating decimal
expansion (sign, integer part, fraction without trailing zeroes). -/
def qToString (q : ℚ) : String :=
  let n := q.num.natAbs
  let d := q.den
  let frac := fracDigits 12 (n % d) d
  (if q < 0 then "-" else "") ++
    (if frac.isEmpty then toString (n / d)
     else toString (n / d) ++ "." ++ String.mk frac)

/-- JS `number.toFixed(p)`: round half away from zero at `p` decimals
and render with exactly `p` fraction digits (the sign of a negative
value rounding to zero is omitted). -/
def toFixedQ (p : ℕ) (q : ℚ) : String :=
  let scaled : ℤ :=
    if 0 ≤ q then ⌊q * (10 : ℚ) ^ p + 1 / 2⌋ else -⌊-q * (10 : ℚ) ^ p + 1 / 2⌋
  let digits := toString scaled.natAbs
  let digits :=
    if digits.length < p + 1 then
      String.mk (List.replicate (p + 1 - digits.length) '0') ++ digits
    else digits
  (if scaled < 0 then "-" else "") ++
    (if p = 0 then digits
     else digits.take (digits.length - p) ++ "." ++ digits.drop (digits.length - p))

/-- Group a digit list (given reversed) into blocks of three separated
by commas, for `toLocaleString`. -/
def groupDigitsRev : List Char → List Char
  | [] => []
  | l =>
    if l.length ≤ 3 then l
    else l.take 3 ++ ',' :: groupDigitsRev (l.drop 3)
termination_by l => l.length
decreasing_by simp_all; omega

/-- JS `number.toLocaleString()` (default locale): thousands grouping of
the integer part; at most three fraction digits (truncated — no datum in
the claims carries more). -/
def toLocaleStr (q : ℚ) : String :=
  let n := q.num.natAbs
  let d := q.den
  let grouped := String.mk (groupDigitsRev (toString (n / d)).toList.reverse).reverse
  let frac := fracDigits 3 (n % d) d
  (if q < 0 then "-" else "") ++
    (if frac.isEmpty then grouped else grouped ++ "." ++ String.mk frac)

/-! ## `BaseAgent` (module `base-agent.js`) -/

/-- `new Date()` as seen by the agents: the epoch milliseconds
(`getTime`, date subtraction) and the calendar year (`getFullYear`). -/
structure JsClock where
  epochMs : ℤ
  year : ℤ
deriving DecidableEq

/-- JS truthiness of an optional numeric field (`0` and absent are
falsy). -/
def truthyQ : Option ℚ → Bool
  | some q => decide (q ≠ 0)
  | none => false

/-- JS truthiness of an optional string field (`""` and absent are
falsy). -/
def truthyS : Option String → Bool
  | some s => decide (s ≠ "")
  | none => false

/-- JS truthiness of an optional integer field (dates are modelled as
epoch integers; `0` and absent are falsy). -/
def truthyZ : Option ℤ → Bool
  | some z => decide (z ≠ 0)
  | none => false

/-- JS string interpolation of a possibly-absent string field
(`undefined` prints as the literal text `undefined`). -/
def jsShow (o : Option String) : String :=
  o.getD "undefined"

/-- JS `a || dflt` on an optional rational (`0` falls through to the
default, as JS `||` does). -/
def jsOrQ (o : Option ℚ) (dflt : ℚ) : ℚ :=
  match o with
  | some q => if q = 0 then dflt else q
  | none => dflt

namespace BaseAgent

/-- Keyword scan shared by the recommendation heuristics:
`keywords.some(k => text.includes(k))` on the lower-cased text. -/
def keywordIn (keys : List String) (t : List Char) : Bool :=
  keys.any (fun k => containsSeq k.toList t)

/-- `BaseAgent.getPriority(recommendation)`. -/
def getPriority (rec : String) : String :=
  let t := lowerChars rec.toList
  if keywordIn ["urgent", "critical", "immediate", "compliance", "risk"] t then "High"
  else if keywordIn ["improve", "optimize", "enhance", "target"] t then "Medium"
  else "Low"

/-- `BaseAgent.estimateImpact(recommendation)`. -/
def estimateImpact (rec : String) : String :=
  let t := lowerChars rec.toList
  if keywordIn ["reduce", "increase", "target", "goal", "significant"] t then "High"
  else "Medium"

/-- `BaseAgent.estimateTimeframe(recommendation)`. -/
def estimateTimeframe (rec : String) : String :=
  let t := lowerChars rec.toList
  if keywordIn ["immediate", "urgent"] t then "1-3 months"
  else if keywordIn ["short", "quick"] t then "3-6 months"
  else if keywordIn ["long", "strategic"] t then "12+ months"
  else "6-12 months"

/-- A formatted recommendation (`BaseAgent.formatRecommendations`
entry). -/
structure Recommendation where
  id : String
  recommendation : String
  priority : String
  category : String
  estimatedImpact : String
  timeframe : String
deriving DecidableEq

/-- `BaseAgent.formatRecommendations(recommendations)`: tag each raw
recommendation with an id, the agent category, and the keyword-derived
priority, impact and timeframe. -/
def formatRecommendations (specialization : String) (recs : List String) :
    List Recommendation :=
  recs.enum.map (fun p =>
    { id := specialization ++ "_rec_" ++ toString (p.1 + 1)
      recommendation := p.2
      priority := getPriority p.2
      category := specialization
      estimatedImpact := estimateImpact p.2
      timeframe := estimateTimeframe p.2 })

/-- The scanner for the numeric alternatives of the metrics regex
`\d+%|\d+\.\d+|\$\d+`: a digit followed by `%`, a decimal number, or a
dollar amount, anywhere in the text. -/
def numericPattern : List Char → Bool
  | c1 :: c2 :: rest =>
    (c1.isDigit && c2 = '%')
    || (c1.isDigit && c2 = '.' && (match rest with | c3 :: _ => c3.isDigit | [] => false))
    || (c1 = '$' && c2.isDigit)
    || numericPattern (c2 :: rest)
  | _ => false

/-- `/\d+%|\d+\.\d+|\$\d+|target|goal/i.test(response)`. -/
def hasMetrics (response : String) : Bool :=
  numericPattern response.toList
    || containsSeq "target".toList (lowerChars response.toList)
    || containsSeq "goal".toList (lowerChars response.toList)

/-- `BaseAgent.calculateConfidence(data, response)`: `0.5` base, `+0.1`
for non-empty data, `+0.1` for a response longer than 100 characters,
`+0.2` when the metrics regex matches, `+0.1` for a specialized agent,
capped at `0.95`. -/
def calculateConfidence (specialization : String) (dataNonempty : Bool)
    (response : String) : ℚ :=
  let c2 : ℚ := if dataNonempty then 0.5 + 0.1 else 0.5
  let c3 := if 100 < response.length then c2 + 0.1 else c2
  let c4 := if hasMetrics response then c3 + 0.2 else c3
  let c5 := if specialization ≠ "general" then c4 + 0.1 else c4
  min 0.95 c5

end BaseAgent

/-! ## Emission tracking agent (`emission-agent.js`) -/

/-- The structured emission record consumed by
`EmissionTrackingAgent.generateInsights` (absent fields are `none`). -/
structure EmissionRecord where
  source : Option String
  value : Option ℚ
  unit : Option String
  baseline : Option ℚ
  region : Option String
  volume : Option ℚ
  verified : Option Bool
deriving DecidableEq

/-- `Object.keys(data).length > 0` for an emission record. -/
def EmissionRecord.nonempty (d : EmissionRecord) : Bool :=
  d.source.isSome || d.value.isSome || d.unit.isSome || d.baseline.isSome
    || d.region.isSome || d.volume.isSome || d.verified.isSome

/-- `validateData(data, ['source', 'value', 'unit'])`: every required
field present and non-null. -/
def EmissionRecord.valid (d : EmissionRecord) : Bool :=
  d.source.isSome && d.value.isSome && d.unit.isSome

/-- `emissionTargets.overall.reductionTarget` (30% by 2030, 2020
baseline). -/
def overallReductionTarget : ℚ := 30

/-- `emissionTargets.scopes[scope].target` (scope1 25, scope2 35,
scope3 30). -/
def scopeTargetTable (scope : String) : Option ℚ :=
  if scope = "scope1" then some 25
  else if scope = "scope2" then some 35
  else if scope = "scope3" then some 30
  else none

/-- `emissionTargets.regional`: per-region `(target, currentProgress)`. -/
def regionalTargetTable (region : String) : Option (ℚ × ℚ) :=
  if region = "Europe" then some (32, 19.8)
  else if region = "Asia Pacific" then some (28, 18.5)
  else none

/-- `EmissionTrackingAgent.determineScope(source)`: the source-to-scope
classification table, defaulting to scope 3. -/
def determineScope (source : String) : String :=
  if source ∈ ["Manufacturing", "Operations", "Water Treatment"] then "scope1"
  else if source ∈ ["Energy Consumption", "Refrigeration"] then "scope2"
  else if source ∈ ["Packaging", "Transportation", "Supply Chain", "SupplyChain"] then
    "scope3"
  else "scope3"

/-- The `scopeSpecific` accumulator of `analyzeEmissionPerformance`. -/
structure EmissionScopeSpecific where
  performanceStatus : Option String
  reductionAchieved : Option ℚ
  scope : String
  scopeTarget : ℚ
  regionalStatus : Option String
  intensity : Option ℚ
  verified : Option Bool
deriving DecidableEq

/-- `EmissionTrackingAgent.analyzeEmissionPerformance(data)`: insights
plus the scope-specific analysis record.  Each block is guarded exactly
as in the source (JS truthiness for `baseline && value`,
`value && volume`, `region && targets.regional[region]`; presence for
`verified !== undefined`). -/
def analyzeEmissionPerformance (d : EmissionRecord) :
    List String × EmissionScopeSpecific :=
  let src := jsShow d.source
  let scope := determineScope src
  let scopeTargetVal := jsOrQ (scopeTargetTable scope) overallReductionTarget
  let reduction? :=
    if truthyQ d.baseline && truthyQ d.value then
      some (((d.baseline.getD 0 - d.value.getD 0) / d.baseline.getD 0) * 100)
    else none
  let ins1 :=
    match reduction? with
    | some r =>
      if overallReductionTarget ≤ r then
        [src ++ " emissions show " ++ toFixedQ 1 r ++ "% reduction, exceeding the "
          ++ qToString overallReductionTarget ++ "% target"]
      else
        [src ++ " emissions show " ++ toFixedQ 1 r ++ "% reduction, "
          ++ toFixedQ 1 (overallReductionTarget - r) ++ "% short of "
          ++ qToString overallReductionTarget ++ "% target"]
    | none => []
  let status? :=
    reduction?.map (fun r =>
      if overallReductionTarget ≤ r then "Exceeding Target" else "Below Target")
  let ins2 :=
    [src ++ " falls under " ++ scope.toUpper ++ " with a "
      ++ qToString scopeTargetVal ++ "% reduction target"]
  let regional? :=
    if truthyS d.region then
      (regionalTargetTable (jsShow d.region)).map (fun t =>
        (jsShow d.region ++ " region shows " ++ qToString t.2
           ++ "% progress toward " ++ qToString t.1 ++ "% target",
         if t.1 ≤ t.2 then "On Track" else "Behind Target"))
    else none
  let ins3 := match regional? with | some p => [p.1] | none => []
  let intensity? :=
    if truthyQ d.value && truthyQ d.volume then
      some (d.value.getD 0 / d.volume.getD 0)
    else none
  let ins4 :=
    match intensity? with
    | some i =>
      ["Emission intensity for " ++ src ++ " is " ++ toFixedQ 4 i ++ " "
        ++ jsShow d.unit ++ "/unit"]
    | none => []
  let ins5 :=
    match d.verified with
    | some v =>
      [src ++ " emissions data is "
        ++ (if v then "third-party verified" else "not yet verified")]
    | none => []
  (ins1 ++ ins2 ++ ins3 ++ ins4 ++ ins5,
   { performanceStatus := status?
     reductionAchieved := reduction?
     scope := scope
     scopeTarget := scopeTargetVal
     regionalStatus := regional?.map (fun p => p.2)
     intensity := intensity?
     verified := d.verified })

/-- `EmissionTrackingAgent.generateEmissionRecommendations(analysis)`. -/
def generateEmissionRecommendations (sp : EmissionScopeSpecific) : List String :=
  (if sp.performanceStatus = some "Below Target" then
    ["Accelerate emission reduction initiatives to meet 2030 targets",
     "Implement additional carbon reduction projects",
     "Review and strengthen current reduction strategies"]
   else []) ++
  (if sp.scope = "scope1" then
    ["Improve energy efficiency in manufacturing operations",
     "Switch to renewable energy sources for direct operations",
     "Optimize combustion processes and reduce fuel consumption"]
   else if sp.scope = "scope2" then
    ["Transition to renewable electricity contracts",
     "Implement energy management systems",
     "Upgrade to energy-efficient equipment and lighting"]
   else if sp.scope = "scope3" then
    ["Engage suppliers on emission reduction commitments",
     "Optimize transportation and logistics networks",
     "Implement sustainable packaging strategies"]
   else []) ++
  (if sp.regionalStatus = some "Behind Target" then
    ["Develop region-specific emission reduction roadmap",
     "Increase investment in regional clean technology",
     "Strengthen local partnerships for emission reduction"]
   else []) ++
  (if sp.verified ≠ some true then
    ["Obtain third-party verification for emission data",
     "Implement robust monitoring and reporting systems",
     "Align with international standards (GHG Protocol, ISO 14064)"]
   else []) ++
  ["Invest in carbon capture and utilization technologies",
   "Explore nature-based carbon offset solutions",
   "Implement circular economy principles to reduce emissions"]

/-- The KPI set of `calculateEmissionKPIs` (absent KPIs are `none`). -/
structure EmissionKPIs where
  reductionProgress : Option ℚ
  targetProgress : Option ℚ
  emissionIntensity : Option ℚ
  annualReductionRate : Option ℚ
  targetAchievementScore : Option ℚ
  carbonEfficiencyScore : Option ℚ
deriving DecidableEq

/-- `EmissionTrackingAgent.calculateEmissionKPIs(data)`:
`reductionProgress = (baseline - value) / baseline * 100`,
`targetProgress` relative to the 30% target, intensity, the annual rate
over the years elapsed since the 2020 baseline (clock-dependent), and
the two derived scores (guarded by JS truthiness of the previous
KPIs). -/
def calculateEmissionKPIs (d : EmissionRecord) (clock : JsClock) : EmissionKPIs :=
  let rp? :=
    if truthyQ d.baseline && truthyQ d.value then
      some (((d.baseline.getD 0 - d.value.getD 0) / d.baseline.getD 0) * 100)
    else none
  let tp? := rp?.map (fun r => r / overallReductionTarget * 100)
  let ei? :=
    if truthyQ d.value && truthyQ d.volume then
      some (d.value.getD 0 / d.volume.getD 0)
    else none
  let arr? :=
    match rp? with
    | some r =>
      let yearsElapsed := clock.year - 2020
      if 0 < yearsElapsed then some (r / (yearsElapsed : ℚ)) else none
    | none => none
  let tas? :=
    match tp? with
    | some t => if t ≠ 0 then some (min 100 (max 0 t)) else none
    | none => none
  let scope := determineScope (jsShow d.source)
  let st := jsOrQ (scopeTargetTable scope) overallReductionTarget
  let ces? :=
    match rp? with
    | some r => if r ≠ 0 then some (r / st * 100) else none
    | none => none
  { reductionProgress := rp?
    targetProgress := tp?
    emissionIntensity := ei?
    annualReductionRate := arr?
    targetAchievementScore := tas?
    carbonEfficiencyScore := ces? }

/-- The projections of `calculateEmissionProjections` (flattened:
`currentTrajectory` plus the three named scenarios). -/
structure EmissionProjections where
  currentReduction : ℚ
  targetReduction : ℚ
  requiredAnnualReduction : ℚ
  onTrack : Bool
  conservativeAnnual : ℚ
  conservativeFinal : ℚ
  realisticAnnual : ℚ
  realisticFinal : ℚ
  optimisticAnnual : ℚ
  optimisticFinal : ℚ
deriving DecidableEq

/-- `EmissionTrackingAgent.calculateEmissionProjections(data)`:
trajectory to the 2030 target year from the current calendar year
(clock-dependent), with conservative/realistic/optimistic scenarios as
multiples of the required annual reduction. -/
def calculateEmissionProjections (d : EmissionRecord) (clock : JsClock) :
    Option EmissionProjections :=
  let yearsToTarget := (2030 : ℤ) - clock.year
  if truthyQ d.baseline && truthyQ d.value && decide (0 < yearsToTarget) then
    let cur := ((d.baseline.getD 0 - d.value.getD 0) / d.baseline.getD 0) * 100
    let years : ℚ := (yearsToTarget : ℚ)
    let req := (overallReductionTarget - cur) / years
    some
      { currentReduction := cur
        targetReduction := overallReductionTarget
        requiredAnnualReduction := req
        onTrack := decide (req ≤ 2)
        conservativeAnnual := max 1 (req * 0.7)
        conservativeFinal := cur + max 1 (req * 0.7) * years
        realisticAnnual := req
        realisticFinal := overallReductionTarget
        optimisticAnnual := req * 1.3
        optimisticFinal := cur + req * 1.3 * years }
  else none

/-- The result record of `EmissionTrackingAgent.generateInsights`. -/
structure EmissionInsightResult where
  insights : List String
  recommendations : List BaseAgent.Recommendation
  kpis : EmissionKPIs
  projections : Option EmissionProjections
  confidence : ℚ
  agent : String
  timestamp : ℤ
  scopeAnalysis : EmissionScopeSpecific
deriving DecidableEq

/-- `EmissionTrackingAgent.generateInsights(emissionData)`: validate
`['source', 'value', 'unit']` (throwing
`Invalid emission data provided` otherwise), then assemble analysis,
formatted recommendations, KPIs, projections and confidence. -/
def emissionGenerateInsights (d : EmissionRecord) (clock : JsClock) :
    Except String EmissionInsightResult :=
  if d.valid then
    let a := analyzeEmissionPerformance d
    Except.ok
      { insights := a.1
        recommendations :=
          BaseAgent.formatRecommendations "emission" (generateEmissionRecommendations a.2)
        kpis := calculateEmissionKPIs d clock
        projections := calculateEmissionProjections d clock
        confidence :=
          BaseAgent.calculateConfidence "emission" d.nonempty
            (String.intercalate " " a.1)
        agent := "emission"
        timestamp := clock.epochMs
        scopeAnalysis := a.2 }
  else Except.error "Invalid emission data provided"

/-! ## Regulatory compliance agent (`regulatory-agent.js`) -/

/-- The structured compliance record consumed by
`RegulatoryComplianceAgent.generateInsights`.  The `deadline` field (a
date) is modelled as epoch milliseconds. -/
structure ComplianceRecord where
  regulation : Option String
  region : Option String
  complianceStatus : Option String
  deadline : Option ℤ
  requirement : Option String
  actions : Option String
  responsible : Option String
deriving DecidableEq

/-- `Object.keys(data).length > 0` for a compliance record. -/
def ComplianceRecord.nonempty (d : ComplianceRecord) : Bool :=
  d.regulation.isSome || d.region.isSome || d.complianceStatus.isSome
    || d.deadline.isSome || d.requirement.isSome || d.actions.isSome
    || d.responsible.isSome

/-- `validateData(data, ['regulation', 'region'])`. -/
def ComplianceRecord.valid (d : ComplianceRecord) : Bool :=
  d.regulation.isSome && d.region.isSome

/-- One entry of the static regulations table (`riskLevel` is the field
the analysis reads; deadlines and penalties are carried as text). -/
structure RegulationInfo where
  deadline : String
  riskLevel : String
deriving DecidableEq

/-- The `europe` regulations of `initializeRegulations`. -/
def europeRegulations : List (String × RegulationInfo) :=
  [("EU Single-Use Plastics Directive", ⟨"2024-12-31", "High"⟩),
   ("Extended Producer Responsibility (EPR)", ⟨"2025-06-30", "High"⟩),
   ("Packaging and Packaging Waste Directive", ⟨"2025-12-31", "Medium"⟩),
   ("EU Taxonomy Regulation", ⟨"2024-01-01", "Medium"⟩)]

/-- The `asiaPacific` regulations of `initializeRegulations`. -/
def asiaPacificRegulations : List (String × RegulationInfo) :=
  [("China Plastic Waste Import Ban", ⟨"2024-01-01", "High"⟩),
   ("Japan Plastic Resource Circulation Act", ⟨"2025-04-01", "Medium"⟩),
   ("Australia National Packaging Targets", ⟨"2025-12-31", "Medium"⟩)]

/-- The `global` regulations of `initializeRegulations`. -/
def globalRegulations : List (String × RegulationInfo) :=
  [("Paris Agreement", ⟨"2030-12-31", "High"⟩),
   ("UN Sustainable Development Goals", ⟨"2030-12-31", "Low"⟩)]

/-- `region.toLowerCase().replace(' ', '')`: lower-case and drop the
first space (JS `replace` with a string pattern replaces one
occurrence). -/
def regionKeyOf (region : String) : String :=
  let rec dropFirstSpace : List Char → List Char
    | [] => []
    | c :: cs => if c = ' ' then cs else c :: dropFirstSpace cs
  String.mk (dropFirstSpace (lowerChars region.toList))

/-- `RegulatoryComplianceAgent.findRegulation(regulationName, region)`:
pick the regional table (falling back to `global`) and look the
regulation up by name. -/
def findRegulation (regulationName region : String) : Option RegulationInfo :=
  let key := regionKeyOf region
  let table :=
    if key = "europe" then europeRegulations
    else if key = "asiapacific" then asiaPacificRegulations
    else globalRegulations
  (table.find? (fun p => p.1 = regulationName)).map (fun p => p.2)

/-- `RegulatoryComplianceAgent.assessComplianceLevel(status)`. -/
def assessComplianceLevel (status : Option String) : String :=
  match status with
  | some "Compliant" => "Full Compliance"
  | some "In Progress" => "Partial Compliance"
  | some "Non-Compliant" => "Non-Compliant"
  | some "Not Applicable" => "Not Applicable"
  | _ => "Unknown"

/-- `RegulatoryComplianceAgent.calculateDaysToDeadline(deadline)`:
`Math.ceil((deadlineDate - today) / 86400000)`. -/
def calculateDaysToDeadline (deadline : ℤ) (clock : JsClock) : ℤ :=
  ⌈((deadline - clock.epochMs : ℤ) : ℚ) / 86400000⌉

/-- `RegulatoryComplianceAgent.assessUrgency(daysToDeadline)`: High
under 30 days, Medium under 90, else Low. -/
def assessUrgency (daysToDeadline : ℤ) : String :=
  if daysToDeadline < 30 then "High"
  else if daysToDeadline < 90 then "Medium"
  else "Low"

/-- `RegulatoryComplianceAgent.calculateComplianceScore(status)`. -/
def calculateComplianceScore (status : Option String) : ℚ :=
  match status with
  | some "Compliant" => 100
  | some "In Progress" => 60
  | some "Non-Compliant" => 20
  | some "Not Applicable" => 0
  | _ => 0

/-- `RegulatoryComplianceAgent.getRegionalContext(region)`. -/
def getRegionalContext (region : Option String) : Option String :=
  match region with
  | some "Europe" =>
    some "European regulations are comprehensive and strictly enforced with significant penalties"
  | some "Asia Pacific" =>
    some "Asia Pacific regulatory landscape is rapidly evolving with increasing stringency"
  | some "Global" =>
    some "International agreements provide framework for national and regional implementation"
  | _ => none

/-- The `complianceSpecific` accumulator of `analyzeComplianceStatus`. -/
structure ComplianceSpecific where
  complianceLevel : String
  daysToDeadline : Option ℤ
  urgency : Option String
  regulatoryRisk : Option String
  keyRequirement : Option String
  actionCount : Option ℕ
  actions : Option (List String)
  responsibleParty : Option String
  regionalContext : Option String
deriving DecidableEq

/-- `RegulatoryComplianceAgent.analyzeComplianceStatus(data)`: insights
plus the compliance-specific analysis record, with each block guarded as
in the source (JS truthiness on `deadline`, `requirement`, `actions`,
`responsible`; table hits for the regulation and the regional
context). -/
def analyzeComplianceStatus (d : ComplianceRecord) (clock : JsClock) :
    List String × ComplianceSpecific :=
  let reg := jsShow d.regulation
  let level := assessComplianceLevel d.complianceStatus
  let ins1 :=
    [reg ++ " compliance status is " ++ jsShow d.complianceStatus
      ++ " (" ++ level ++ ")"]
  let deadline? :=
    if truthyZ d.deadline then
      let days := calculateDaysToDeadline (d.deadline.getD 0) clock
      some (days, assessUrgency days)
    else none
  let ins2 :=
    match deadline? with
    | some p =>
      ["Compliance deadline is " ++ toString (d.deadline.getD 0) ++ " ("
        ++ toString p.1 ++ " days remaining, " ++ p.2 ++ " urgency)"]
    | none => []
  let regInfo := findRegulation reg (jsShow d.region)
  let risk? :=
    match regInfo with
    | some info => if info.riskLevel ≠ "" then some info.riskLevel else none
    | none => none
  let ins3 :=
    match risk? with
    | some r =>
      ["Regulatory risk level is assessed as " ++ String.mk (lowerChars r.toList)]
    | none => []
  let ins4 :=
    if truthyS d.requirement then ["Key requirement: " ++ jsShow d.requirement]
    else []
  let actions? :=
    if truthyS d.actions then
      let parts := (splitChar ',' (jsShow d.actions).toList).map
        (fun p => String.mk (jsTrim p))
      some parts
    else none
  let ins5 :=
    match actions? with
    | some parts =>
      [toString parts.length ++ " action item(s) identified for compliance"]
    | none => []
  let ins6 :=
    if truthyS d.responsible then
      ["Compliance responsibility assigned to: " ++ jsShow d.responsible]
    else []
  let context? := getRegionalContext d.region
  let ins7 := match context? with | some c => [c] | none => []
  (ins1 ++ ins2 ++ ins3 ++ ins4 ++ ins5 ++ ins6 ++ ins7,
   { complianceLevel := level
     daysToDeadline := deadline?.map (fun p => p.1)
     urgency := deadline?.map (fun p => p.2)
     regulatoryRisk := risk?
     keyRequirement := if truthyS d.requirement then d.requirement else none
     actionCount := actions?.map (fun l => l.length)
     actions := actions?
     responsibleParty := if truthyS d.responsible then d.responsible else none
     regionalContext := context? })

/-- `RegulatoryComplianceAgent.generateComplianceRecommendations`. -/
def generateComplianceRecommendations (sp : ComplianceSpecific) : List String :=
  (if sp.complianceLevel = "Non-Compliant" then
    ["Immediate action required to achieve regulatory compliance",
     "Conduct comprehensive compliance gap analysis",
     "Engage legal counsel for compliance strategy development"]
   else if sp.complianceLevel = "Partial Compliance" then
    ["Accelerate compliance improvement initiatives",
     "Address remaining compliance gaps systematically",
     "Implement enhanced monitoring and reporting systems"]
   else []) ++
  (if sp.urgency = some "High" then
    ["Establish dedicated compliance task force",
     "Prioritize resources for immediate compliance actions",
     "Consider interim measures to reduce non-compliance risk"]
   else if sp.urgency = some "Medium" then
    ["Develop detailed compliance implementation timeline",
     "Allocate sufficient resources for compliance activities",
     "Regular progress monitoring and reporting"]
   else []) ++
  (if sp.regulatoryRisk = some "High" then
    ["Implement comprehensive risk mitigation strategy",
     "Engage with regulatory authorities proactively",
     "Consider compliance insurance or bonding"]
   else []) ++
  (if 5 < sp.actionCount.getD 0 then
    ["Prioritize compliance actions based on risk and impact",
     "Establish clear accountability and timelines for each action",
     "Implement project management approach for compliance activities"]
   else []) ++
  ["Establish regulatory monitoring and early warning system",
   "Develop compliance training programs for relevant staff",
   "Create compliance documentation and audit trails",
   "Engage with industry associations on regulatory developments"]

/-- The KPI set of `calculateComplianceKPIs`. -/
structure ComplianceKPIs where
  complianceScore : ℚ
  daysToDeadline : Option ℤ
  complianceProgress : Option ℚ
  riskScore : Option ℚ
  urgencyScore : Option ℚ
  overallComplianceHealth : Option ℚ
deriving DecidableEq

/-- `RegulatoryComplianceAgent.calculateComplianceKPIs(data)`:
status score, days to deadline (clock-dependent), progress, the
table-derived risk score, the deadline-derived urgency score, and the
composite health score averaging the present factors. -/
def calculateComplianceKPIs (d : ComplianceRecord) (clock : JsClock) :
    ComplianceKPIs :=
  let score := calculateComplianceScore d.complianceStatus
  let days? :=
    if truthyZ d.deadline then some (calculateDaysToDeadline (d.deadline.getD 0) clock)
    else none
  let progress? :=
    if truthyS d.complianceStatus && d.complianceStatus ≠ some "Not Applicable" then
      some (match d.complianceStatus with
        | some "Compliant" => (100 : ℚ)
        | some "In Progress" => 60
        | some "Non-Compliant" => 20
        | _ => 0)
    else none
  let risk? :=
    (findRegulation (jsShow d.regulation) (jsShow d.region)).map (fun info =>
      if info.riskLevel = "High" then (80 : ℚ)
      else if info.riskLevel = "Medium" then 50
      else if info.riskLevel = "Low" then 20
      else 50)
  let urgency? :=
    days?.map (fun days => max 0 (100 - ((days : ℚ) / 365 * 100)))
  let health :=
    let base := score
    match risk? with
    | some r => some ((base + (100 - r)) / 2)
    | none => some (base / 1)
  { complianceScore := score
    daysToDeadline := days?
    complianceProgress := progress?
    riskScore := risk?
    urgencyScore := urgency?
    overallComplianceHealth := health }

/-- The risk assessment of `assessRegulatoryRisk`. -/
structure RegulatoryRiskAssessment where
  overallRisk : String
  riskFactors : List String
  mitigationStrategies : List String
deriving DecidableEq

/-- `RegulatoryComplianceAgent.assessRegulatoryRisk(data)`: starts at
Medium, escalates to High on non-compliance or a deadline within 90 days
(clock-dependent), and records factors for high-risk regulations and the
European region. -/
def assessRegulatoryRisk (d : ComplianceRecord) (clock : JsClock) :
    RegulatoryRiskAssessment :=
  let f1 := d.complianceStatus = some "Non-Compliant"
  let f2 :=
    truthyZ d.deadline && decide (calculateDaysToDeadline (d.deadline.getD 0) clock < 90)
  let regInfo := findRegulation (jsShow d.regulation) (jsShow d.region)
  let f3 := (regInfo.map (fun i => i.riskLevel)).getD "" = "High"
  let f4 := d.region = some "Europe"
  { overallRisk := if f1 || f2 then "High" else "Medium"
    riskFactors :=
      (if f1 then ["Non-compliant status"] else []) ++
      (if f2 then ["Approaching compliance deadline"] else []) ++
      (if f3 then ["High-risk regulation"] else []) ++
      (if f4 then ["Strict European regulatory environment"] else [])
    mitigationStrategies :=
      (if f1 then ["Immediate compliance remediation"] else []) ++
      (if f2 then ["Accelerate compliance activities"] else []) ++
      (if f3 then ["Enhanced compliance monitoring"] else []) ++
      (if f4 then ["Proactive regulatory engagement"] else []) }

/-- The result record of `RegulatoryComplianceAgent.generateInsights`. -/
structure ComplianceInsightResult where
  insights : List String
  recommendations : List BaseAgent.Recommendation
  kpis : ComplianceKPIs
  riskAssessment : RegulatoryRiskAssessment
  confidence : ℚ
  agent : String
  timestamp : ℤ
  complianceAnalysis : ComplianceSpecific
deriving DecidableEq

/-- `RegulatoryComplianceAgent.generateInsights(complianceData)`:
validate `['regulation', 'region']` (throwing
`Invalid compliance data provided` otherwise), then assemble the
analysis, formatted recommendations, KPIs, risk assessment and
confidence. -/
def regulatoryGenerateInsights (d : ComplianceRecord) (clock : JsClock) :
    Except String ComplianceInsightResult :=
  if d.valid then
    let a := analyzeComplianceStatus d clock
    Except.ok
      { insights := a.1
        recommendations :=
          BaseAgent.formatRecommendations "regulatory"
            (generateComplianceRecommendations a.2)
        kpis := calculateComplianceKPIs d clock
        riskAssessment := assessRegulatoryRisk d clock
        confidence :=
          BaseAgent.calculateConfidence "regulatory" d.nonempty
            (String.intercalate " " a.1)
        agent := "regulatory"
        timestamp := clock.epochMs
        complianceAnalysis := a.2 }
  else Except.error "Invalid compliance data provided"

/-! ## Supply chain agent (`supply-chain-agent.js`) -/

/-- The structured supplier record consumed by
`SupplyChainAgent.generateInsights`. -/
structure SupplierRecord where
  supplier : Option String
  sustainabilityScore : Option ℚ
  carbonIntensity : Option ℚ
  recycledContentCapability : Option ℚ
  certifications : Option String
  performanceRating : Option ℚ
  contractValue : Option ℚ
  riskLevel : Option String
  region : Option String
deriving DecidableEq

/-- `Object.keys(data).length > 0` for a supplier record. -/
def SupplierRecord.nonempty (d : SupplierRecord) : Bool :=
  d.supplier.isSome || d.sustainabilityScore.isSome || d.carbonIntensity.isSome
    || d.recycledContentCapability.isSome || d.certifications.isSome
    || d.performanceRating.isSome || d.contractValue.isSome
    || d.riskLevel.isSome || d.region.isSome

/-- `validateData(data, ['supplier', 'sustainabilityScore'])`. -/
def SupplierRecord.valid (d : SupplierRecord) : Bool :=
  d.supplier.isSome && d.sustainabilityScore.isSome

/-- `SupplyChainAgent.categorizeSustainabilityScore(score)` via the
`sustainabilityThresholds` table (Excellent ≥ 8.5, Good ≥ 7.0,
Fair ≥ 5.5, Poor ≥ 3.0, else Critical). -/
def categorizeSustainabilityScore (score : ℚ) : String :=
  if 8.5 ≤ score then "Excellent"
  else if 7 ≤ score then "Good"
  else if 5.5 ≤ score then "Fair"
  else if 3 ≤ score then "Poor"
  else "Critical"

/-- `SupplyChainAgent.categorizeContractValue(value)`. -/
def categorizeContractValue (value : ℚ) : String :=
  if 50000000 ≤ value then "Strategic"
  else if 10000000 ≤ value then "Key"
  else if 1000000 ≤ value then "Important"
  else "Standard"

/-- The `supplierSpecific` accumulator of `analyzeSupplierPerformance`. -/
structure SupplierSpecific where
  scoreCategory : String
  scoreStatus : String
  carbonIntensityStatus : Option String
  recycledContentCapability : Option String
  certificationCount : Option ℕ
  certifications : Option (List String)
  performanceStatus : Option String
  valueCategory : Option String
  riskLevel : Option String
deriving DecidableEq

/-- `SupplyChainAgent.analyzeSupplierPerformance(data)`: insights plus
the supplier-specific analysis record, each block guarded exactly as in
the source (`!== undefined` presence checks for the numeric fields, JS
truthiness for `certifications` and `riskLevel`). -/
def analyzeSupplierPerformance (d : SupplierRecord) :
    List String × SupplierSpecific :=
  let name := jsShow d.supplier
  let score := d.sustainabilityScore.getD 0
  let cat := categorizeSustainabilityScore score
  let ins1 :=
    [name ++ " has a sustainability score of " ++ qToString score
      ++ "/10, categorized as \x27" ++ cat ++ "\x27"]
  let scoreStatus :=
    if 8.5 ≤ score then "Excellent" else if 7 ≤ score then "Good"
    else "Needs Improvement"
  let ci? :=
    d.carbonIntensity.map (fun ci =>
      if ci ≤ 2 then "Low" else if ci ≤ 4 then "Medium" else "High")
  let ins2 :=
    match d.carbonIntensity, ci? with
    | some ci, some st =>
      ["Carbon intensity at " ++ qToString ci ++ " kg CO2e/unit is "
        ++ String.mk (lowerChars st.toList)]
    | _, _ => []
  let rc? :=
    d.recycledContentCapability.map (fun rc =>
      if 75 ≤ rc then "High" else if 50 ≤ rc then "Medium" else "Low")
  let ins3 :=
    match d.recycledContentCapability, rc? with
    | some rc, some lvl =>
      ["Recycled content capability at " ++ qToString rc ++ "% is "
        ++ String.mk (lowerChars lvl.toList)]
    | _, _ => []
  let certs? :=
    if truthyS d.certifications then
      some ((splitChar ',' (jsShow d.certifications).toList).map
        (fun p => String.mk (jsTrim p)))
    else none
  let ins4 :=
    match certs? with
    | some parts =>
      ["Supplier holds " ++ toString parts.length
        ++ " sustainability certification(s): " ++ jsShow d.certifications]
    | none => []
  let perf? :=
    d.performanceRating.map (fun pr =>
      if 8 ≤ pr then "Excellent" else if 6 ≤ pr then "Good" else "Poor")
  let ins5 :=
    match d.performanceRating, perf? with
    | some pr, some st =>
      ["Overall performance rating of " ++ qToString pr ++ "/10 is "
        ++ String.mk (lowerChars st.toList)]
    | _, _ => []
  let val? := d.contractValue.map categorizeContractValue
  let ins6 :=
    match d.contractValue, val? with
    | some v, some vc =>
      ["Contract value of " ++ toLocaleStr v ++ " represents " ++ vc
        ++ " supplier relationship"]
    | _, _ => []
  let risk? := if truthyS d.riskLevel then d.riskLevel else none
  let ins7 :=
    match risk? with
    | some r =>
      ["Supplier risk level is assessed as " ++ String.mk (lowerChars r.toList)]
    | none => []
  (ins1 ++ ins2 ++ ins3 ++ ins4 ++ ins5 ++ ins6 ++ ins7,
   { scoreCategory := cat
     scoreStatus := scoreStatus
     carbonIntensityStatus := ci?
     recycledContentCapability := rc?
     certificationCount := certs?.map (fun l => l.length)
     certifications := certs?
     performanceStatus := perf?
     valueCategory := val?
     riskLevel := risk? })

/-- `SupplyChainAgent.generateSupplyChainRecommendations(analysis)`. -/
def generateSupplyChainRecommendations (sp : SupplierSpecific) : List String :=
  (if sp.scoreStatus = "Needs Improvement" then
    ["Implement supplier development program to improve sustainability performance",
     "Provide sustainability training and capacity building support",
     "Set clear improvement targets with timeline and milestones"]
   else []) ++
  (if sp.carbonIntensityStatus = some "High" then
    ["Work with supplier to develop carbon reduction roadmap",
     "Encourage adoption of renewable energy and energy efficiency measures",
     "Consider carbon pricing in supplier contracts"]
   else []) ++
  (if sp.recycledContentCapability = some "Low" then
    ["Support supplier investment in recycled content processing capabilities",
     "Connect supplier with recycled material sources and technologies",
     "Establish recycled content targets in supply agreements"]
   else []) ++
  (if sp.certifications.isNone || sp.certificationCount.getD 0 < 2 then
    ["Encourage supplier to obtain relevant sustainability certifications",
     "Provide guidance on certification requirements and processes",
     "Consider certification requirements in future contracts"]
   else []) ++
  (if sp.performanceStatus = some "Poor" then
    ["Conduct detailed supplier assessment and improvement planning",
     "Consider supplier replacement if improvement targets are not met",
     "Implement enhanced monitoring and reporting requirements"]
   else []) ++
  (if sp.riskLevel = some "High" then
    ["Develop comprehensive risk mitigation plan",
     "Increase supplier monitoring and audit frequency",
     "Diversify supplier base to reduce dependency"]
   else []) ++
  ["Implement supplier sustainability scorecards and regular reviews",
   "Establish long-term partnerships with high-performing suppliers",
   "Integrate sustainability criteria into supplier selection processes"]

/-- The KPI set of `calculateSupplyChainKPIs`. -/
structure SupplyChainKPIs where
  sustainabilityIndex : Option ℚ
  carbonEfficiencyScore : Option ℚ
  circularEconomyScore : Option ℚ
  complianceScore : Option ℚ
  overallSupplierRating : Option ℚ
  valueWeightedPerformance : Option ℚ
deriving DecidableEq

/-- `SupplyChainAgent.calculateSupplyChainKPIs(data)`. -/
def calculateSupplyChainKPIs (d : SupplierRecord) : SupplyChainKPIs :=
  let si? := d.sustainabilityScore.map (fun s => s / 10 * 100)
  let ces? := d.carbonIntensity.map (fun ci => max 0 (100 - ci * 25))
  let circ? := d.recycledContentCapability.map (fun rc => rc / 1)
  let comp? :=
    if truthyS d.certifications then
      some (min 100
        (((splitChar ',' (jsShow d.certifications).toList).length : ℚ) * 25))
    else none
  let rating? :=
    match d.sustainabilityScore, d.performanceRating with
    | some s, some p => some ((s * 10 + p * 10) / 2)
    | some s, none => some (s * 10 / 1)
    | none, some p => some (p * 10 / 1)
    | none, none => none
  let vwp? :=
    if truthyQ d.contractValue && truthyQ d.sustainabilityScore then
      some (d.contractValue.getD 0 * (d.sustainabilityScore.getD 0 / 10))
    else none
  { sustainabilityIndex := si?
    carbonEfficiencyScore := ces?
    circularEconomyScore := circ?
    complianceScore := comp?
    overallSupplierRating := rating?
    valueWeightedPerformance := vwp? }

/-- The risk assessment of `SupplyChainAgent.assessSupplierRisk`. -/
structure SupplierRiskAssessment where
  overallRisk : String
  riskFactors : List String
  mitigationStrategies : List String
  riskScore : Option ℚ
deriving DecidableEq

/-- `SupplyChainAgent.assessSupplierRisk(data)`: accumulate a risk score
against the maximal score of the present dimensions and bucket the
percentage into High / Medium / Low. -/
def assessSupplierRisk (d : SupplierRecord) : SupplierRiskAssessment :=
  let sustRisk? :=
    d.sustainabilityScore.map (fun s =>
      if s < 6 then (3 : ℚ) else if s < 8 then 1 else 0)
  let carbonRisk? :=
    d.carbonIntensity.map (fun ci => if 4 < ci then (2 : ℚ) else if 2 < ci then 1 else 0)
  let geoRisk? :=
    if truthyS d.region then
      some (if d.region = some "Asia Pacific" then (1 : ℚ) else 0)
    else none
  let valueRisk? :=
    d.contractValue.map (fun v => if 10000000 < v then (1 : ℚ) else 0)
  let riskScore :=
    sustRisk?.getD 0 + carbonRisk?.getD 0 + geoRisk?.getD 0 + valueRisk?.getD 0
  let maxRiskScore :=
    (if sustRisk?.isSome then (3 : ℚ) else 0)
      + (if carbonRisk?.isSome then 2 else 0)
      + (if geoRisk?.isSome then 1 else 0)
      + (if valueRisk?.isSome then 1 else 0)
  let factors :=
    (if 0 < sustRisk?.getD 0 then ["Low sustainability performance"] else []) ++
    (if 0 < carbonRisk?.getD 0 then ["High carbon intensity"] else []) ++
    (if 0 < geoRisk?.getD 0 then ["Geographic regulatory risk"] else []) ++
    (if 0 < valueRisk?.getD 0 then ["High contract value dependency"] else [])
  let strategies :=
    (if 0 < sustRisk?.getD 0 then ["Implement supplier development program"] else []) ++
    (if 0 < carbonRisk?.getD 0 then ["Support carbon reduction initiatives"] else []) ++
    (if 0 < geoRisk?.getD 0 then ["Monitor regulatory changes and compliance"] else []) ++
    (if 0 < valueRisk?.getD 0 then ["Diversify supplier base"] else [])
  if 0 < maxRiskScore then
    let pct := riskScore / maxRiskScore * 100
    { overallRisk := if 60 < pct then "High" else if 30 < pct then "Medium" else "Low"
      riskFactors := factors
      mitigationStrategies := strategies
      riskScore := some pct }
  else
    { overallRisk := "Medium"
      riskFactors := factors
      mitigationStrategies := strategies
      riskScore := none }

/-- The result record of `SupplyChainAgent.generateInsights`. -/
structure SupplierInsightResult where
  insights : List String
  recommendations : List BaseAgent.Recommendation
  kpis : SupplyChainKPIs
  riskAssessment : SupplierRiskAssessment
  confidence : ℚ
  agent : String
  timestamp : ℤ
  supplierAnalysis : SupplierSpecific
deriving DecidableEq

/-- `SupplyChainAgent.generateInsights(supplierData)`: validate
`['supplier', 'sustainabilityScore']` (throwing
`Invalid supplier data provided` otherwise), then assemble analysis,
formatted recommendations, KPIs, risk assessment and confidence. -/
def supplyChainGenerateInsights (d : SupplierRecord) (clock : JsClock) :
    Except String SupplierInsightResult :=
  if d.valid then
    let a := analyzeSupplierPerformance d
    Except.ok
      { insights := a.1
        recommendations :=
          BaseAgent.formatRecommendations "supplyChain"
            (generateSupplyChainRecommendations a.2)
        kpis := calculateSupplyChainKPIs d
        riskAssessment := assessSupplierRisk d
        confidence :=
          BaseAgent.calculateConfidence "supplyChain" d.nonempty
            (String.intercalate " " a.1)
        agent := "supplyChain"
        timestamp := clock.epochMs
        supplierAnalysis := a.2 }
  else Except.error "Invalid supplier data provided"

/-! ## Packaging analysis agent (`gen-ai-service.js`,
`PackagingAnalysisAgent`) -/

/-- The structured packaging record consumed by
`PackagingAnalysisAgent.generateInsights`. -/
structure PackagingRecord where
  material : Option String
  region : Option String
  recyclableContent : Option ℚ
  recycledContent : Option ℚ
  carbonFootprint : Option ℚ
  collectionRate : Option ℚ
  volume : Option ℚ
deriving DecidableEq

/-- `Object.keys(data).length > 0` for a packaging record. -/
def PackagingRecord.nonempty (d : PackagingRecord) : Bool :=
  d.material.isSome || d.region.isSome || d.recyclableContent.isSome
    || d.recycledContent.isSome || d.carbonFootprint.isSome
    || d.collectionRate.isSome || d.volume.isSome

/-- `validateData(data, ['material', 'region'])`. -/
def PackagingRecord.valid (d : PackagingRecord) : Bool :=
  d.material.isSome && d.region.isSome

/-- One row of the `materialTargets` table. -/
structure MaterialTargets where
  recyclableTarget : ℚ
  recycledContentTarget : ℚ
  carbonFootprintMax : ℚ
deriving DecidableEq

/-- `initializeMaterialTargets()`: the per-material target table;
lookups fall back to the PET row
(`this.materialTargets[material] || this.materialTargets.PET`). -/
def materialTargetsFor (material : String) : MaterialTargets :=
  if material = "PET" then ⟨100, 50, 0.090⟩
  else if material = "Aluminum" then ⟨100, 75, 0.160⟩
  else if material = "Glass" then ⟨100, 45, 0.240⟩
  else if material = "HDPE" then ⟨90, 35, 0.070⟩
  else if material = "Cardboard" then ⟨95, 80, 0.050⟩
  else ⟨100, 50, 0.090⟩

/-- `PackagingAnalysisAgent.categorizeVolume(volume)`. -/
def categorizeVolume (volume : ℚ) : String :=
  if 5000000 ≤ volume then "Large"
  else if 1000000 ≤ volume then "Medium"
  else if 100000 ≤ volume then "Small"
  else "Pilot"

/-- The `materialSpecific` accumulator of
`analyzePackagingPerformance`. -/
structure MaterialSpecific where
  recyclabilityStatus : Option String
  recycledContentStatus : Option String
  carbonFootprintStatus : Option String
  collectionStatus : Option String
  volumeCategory : Option String
deriving DecidableEq

/-- `PackagingAnalysisAgent.analyzePackagingPerformance(data)`: gap
metrics for recyclability, recycled content, carbon footprint,
collection rate (region target 85 for Europe, else 70) and volume
category, each guarded by an `!== undefined` presence check. -/
def analyzePackagingPerformance (d : PackagingRecord) :
    List String × MaterialSpecific :=
  let material := jsShow d.material
  let targets := materialTargetsFor material
  let recyc? :=
    d.recyclableContent.map (fun rc =>
      let gap := targets.recyclableTarget - rc
      if 0 < gap then
        (material ++ " recyclability at " ++ qToString rc ++ "% is "
          ++ qToString gap ++ "% below the " ++ qToString targets.recyclableTarget
          ++ "% target", "Below Target")
      else
        (material ++ " recyclability at " ++ qToString rc
          ++ "% meets or exceeds the " ++ qToString targets.recyclableTarget
          ++ "% target", "On Target"))
  let recycled? :=
    d.recycledContent.map (fun rc =>
      let gap := targets.recycledContentTarget - rc
      if 0 < gap then
        (material ++ " recycled content at " ++ qToString rc ++ "% needs "
          ++ qToString gap ++ "% improvement to meet "
          ++ qToString targets.recycledContentTarget ++ "% target", "Below Target")
      else
        (material ++ " recycled content at " ++ qToString rc ++ "% meets the "
          ++ qToString targets.recycledContentTarget ++ "% target", "On Target"))
  let carbon? :=
    d.carbonFootprint.map (fun cf =>
      if targets.carbonFootprintMax < cf then
        (material ++ " carbon footprint at " ++ qToString cf ++ " kg CO2e is "
          ++ toFixedQ 1 ((cf - targets.carbonFootprintMax)
              / targets.carbonFootprintMax * 100)
          ++ "% above optimal levels", "Above Target")
      else
        (material ++ " carbon footprint at " ++ qToString cf
          ++ " kg CO2e is within optimal range", "On Target"))
  let collection? :=
    d.collectionRate.map (fun cr =>
      let regionTarget : ℚ := if d.region = some "Europe" then 85 else 70
      let gap := regionTarget - cr
      if 0 < gap then
        ("Collection rate in " ++ jsShow d.region ++ " at " ++ qToString cr
          ++ "% needs " ++ qToString gap ++ "% improvement to meet "
          ++ qToString regionTarget ++ "% target", "Below Target")
      else
        ("Collection rate in " ++ jsShow d.region ++ " at " ++ qToString cr
          ++ "% meets the " ++ qToString regionTarget ++ "% target", "On Target"))
  let volume? :=
    d.volume.map (fun v =>
      (material ++ " volume at " ++ toLocaleStr v ++ " units represents "
        ++ categorizeVolume v ++ " scale production", categorizeVolume v))
  let pick := fun (o : Option (String × String)) =>
    match o with | some p => [p.1] | none => []
  (pick recyc? ++ pick recycled? ++ pick carbon? ++ pick collection?
     ++ pick volume?,
   { recyclabilityStatus := recyc?.map (fun p => p.2)
     recycledContentStatus := recycled?.map (fun p => p.2)
     carbonFootprintStatus := carbon?.map (fun p => p.2)
     collectionStatus := collection?.map (fun p => p.2)
     volumeCategory := volume?.map (fun p => p.2) })

/-- `PackagingAnalysisAgent.generatePackagingRecommendations`. -/
def generatePackagingRecommendations (sp : MaterialSpecific) : List String :=
  (if sp.recyclabilityStatus = some "Below Target" then
    ["Transition to fully recyclable material alternatives",
     "Eliminate multi-layer packaging that hinders recyclability",
     "Partner with recycling facilities to improve material compatibility"]
   else []) ++
  (if sp.recycledContentStatus = some "Below Target" then
    ["Increase supplier partnerships for recycled materials",
     "Invest in recycled content processing capabilities",
     "Implement closed-loop recycling systems"]
   else []) ++
  (if sp.carbonFootprintStatus = some "Above Target" then
    ["Optimize packaging design to reduce material usage",
     "Switch to lower-carbon alternative materials",
     "Improve transportation efficiency through packaging optimization"]
   else []) ++
  (if sp.collectionStatus = some "Below Target" then
    ["Expand collection infrastructure in underperforming regions",
     "Implement consumer education programs on proper disposal",
     "Partner with local governments on collection initiatives"]
   else []) ++
  ["Explore bio-based packaging alternatives",
   "Implement smart packaging with recycling instructions",
   "Develop regional packaging strategies based on local infrastructure"]

/-- The KPI set of `calculatePackagingKPIs`. -/
structure PackagingKPIs where
  recyclabilityScore : Option ℚ
  sustainabilityIndex : Option ℚ
  carbonIntensity : Option ℚ
  recyclabilityAchievement : Option ℚ
  recycledContentAchievement : Option ℚ
deriving DecidableEq

/-- `PackagingAnalysisAgent.calculatePackagingKPIs(data)`: the
recyclability score, the composite sustainability index (mean of the
present factors among recyclable content, recycled content and
collection rate), per-1000-unit carbon intensity, and target-achievement
percentages against the material targets. -/
def calculatePackagingKPIs (d : PackagingRecord) : PackagingKPIs :=
  let targets := materialTargetsFor (jsShow d.material)
  let factorsList :=
    (match d.recyclableContent with | some x => [x] | none => []) ++
    (match d.recycledContent with | some x => [x] | none => []) ++
    (match d.collectionRate with | some x => [x] | none => [])
  let si? :=
    if 0 < factorsList.length then
      some (factorsList.sum / (factorsList.length : ℚ))
    else none
  let ci? :=
    match d.carbonFootprint, d.volume with
    | some cf, some v => if 0 < v then some (cf / v * 1000) else none
    | _, _ => none
  { recyclabilityScore := d.recyclableContent
    sustainabilityIndex := si?
    carbonIntensity := ci?
    recyclabilityAchievement :=
      d.recyclableContent.map (fun rc => rc / targets.recyclableTarget * 100)
    recycledContentAchievement :=
      d.recycledContent.map (fun rc => rc / targets.recycledContentTarget * 100) }

/-- The result record of `PackagingAnalysisAgent.generateInsights`. -/
structure PackagingInsightResult where
  insights : List String
  recommendations : List BaseAgent.Recommendation
  kpis : PackagingKPIs
  confidence : ℚ
  agent : String
  timestamp : ℤ
  materialAnalysis : MaterialSpecific
deriving DecidableEq

/-- `PackagingAnalysisAgent.generateInsights(packagingData)`: validate
`['material', 'region']` (throwing `Invalid packaging data provided`
otherwise), then assemble analysis, formatted recommendations, KPIs and
confidence. -/
def packagingGenerateInsights (d : PackagingRecord) (clock : JsClock) :
    Except String PackagingInsightResult :=
  if d.valid then
    let a := analyzePackagingPerformance d
    Except.ok
      { insights := a.1
        recommendations :=
          BaseAgent.formatRecommendations "packaging"
            (generatePackagingRecommendations a.2)
        kpis := calculatePackagingKPIs d
        confidence :=
          BaseAgent.calculateConfidence "packaging" d.nonempty
            (String.intercalate " " a.1)
        agent := "packaging"
        timestamp := clock.epochMs
        materialAnalysis := a.2 }
  else Except.error "Invalid packaging data provided"

/-! ## Claim theorems -/

/-- C10: for every pair of input vectors of differing lengths,
`cosineSimilarity` returns `0` rather than raising an error or producing
an out-of-range value, so a dimensionality mismatch between a query
embedding and a stored chunk embedding silently ranks that chunk with
similarity `0`. -/
theorem cosineSimilarity_length_mismatch_eq_zero (a b : List ℝ)
    (h : a.length ≠ b.length) : cosineSimilarity a b = 0 := by
  simp [cosineSimilarity, h]

/-- Witness for C10 at the concrete mismatched pair `[1]` / `[1, 0]`. -/
theorem cosineSimilarity_length_mismatch_eq_zero_witness :
    ([(1 : ℝ)].length ≠ [(1 : ℝ), 0].length)
      ∧ cosineSimilarity [(1 : ℝ)] [1, 0] = 0 :=
  ⟨by decide, cosineSimilarity_length_mismatch_eq_zero _ _ (by decide)⟩

/-- C6 (amended): calling each of the four agents with the empty record
`{}` fails before any insight is produced, but with the generic message
`Invalid <domain> data provided` whose text does not name the missing
required fields (these are only written to the log by `validateData`). -/
theorem agents_reject_empty_record (clock : JsClock) :
    packagingGenerateInsights ⟨none, none, none, none, none, none, none⟩ clock
        = Except.error "Invalid packaging data provided"
      ∧ emissionGenerateInsights ⟨none, none, none, none, none, none, none⟩ clock
        = Except.error "Invalid emission data provided"
      ∧ supplyChainGenerateInsights
          ⟨none, none, none, none, none, none, none, none, none⟩ clock
        = Except.error "Invalid supplier data provided"
      ∧ regulatoryGenerateInsights ⟨none, none, none, none, none, none, none⟩ clock
        = Except.error "Invalid compliance data provided" :=
  ⟨rfl, rfl, rfl, rfl⟩

/-- Counterexample for C6 as stated: the packaging agent rejects the
empty record with the error message `Invalid packaging data provided`,
which names neither of its missing required fields `material` and
`region`. -/
theorem packaging_empty_rejection_names_no_field :
    packagingGenerateInsights ⟨none, none, none, none, none, none, none⟩ ⟨0, 2025⟩
        = Except.error "Invalid packaging data provided"
      ∧ containsSeq "material".toList "Invalid packaging data provided".toList = false
      ∧ containsSeq "region".toList "Invalid packaging data provided".toList = false :=
  ⟨rfl, by decide, by decide⟩

/-- Counterexample for C7 as stated: the emission record
`{source: "Packaging", value: 815, baseline: 1000, region: "Europe"}` of
the scenario carries no `unit` field, so `validateData(data, ['source',
'value', 'unit'])` fails and the analysis throws instead of
succeeding. -/
theorem emission_scenario_missing_unit_rejected :
    emissionGenerateInsights
        ⟨some "Packaging", some 815, none, some 1000, some "Europe", none, none⟩
        ⟨0, 2025⟩
      = Except.error "Invalid emission data provided" := rfl

/-- C7 (amended): with the required `unit` field supplied, the emission
analysis of `{source: "Packaging", value: 815, unit: "tonnes CO2e",
baseline: 1000, region: "Europe"}` succeeds, the KPI
`reductionProgress` is `18.5` (hence within `±0.1` of `18.5`), and the
performance status is `Below Target` (`18.5% < 30%` target), at every
clock value. -/
theorem emission_scenario_with_unit_below_target (clock : JsClock) :
    ∃ res rp,
      emissionGenerateInsights
          ⟨some "Packaging", some 815, some "tonnes CO2e", some 1000,
           some "Europe", none, none⟩ clock = Except.ok res
        ∧ res.kpis.reductionProgress = some rp
        ∧ |rp - 18.5| ≤ (0.1 : ℚ)
        ∧ res.scopeAnalysis.performanceStatus = some "Below Target" := by
  refine ⟨_, 18.5, rfl, ?_, by norm_num, ?_⟩
  · show (calculateEmissionKPIs
        ⟨some "Packaging", some 815, some "tonnes CO2e", some 1000,
         some "Europe", none, none⟩ clock).reductionProgress = some 18.5
    simp only [calculateEmissionKPIs]
    norm_num [truthyQ]
  · show (analyzeEmissionPerformance
        ⟨some "Packaging", some 815, some "tonnes CO2e", some 1000,
         some "Europe", none, none⟩).2.performanceStatus = some "Below Target"
    simp only [analyzeEmissionPerformance]
    norm_num [truthyQ, overallReductionTarget]

/-- C2: a query that the keyword classifier cannot classify and that
carries no valid agent-type hint routes to the packaging agent (the
designated default), and neither the router nor the analysis dispatcher
`getAgentForAnalysis` ever selects an agent outside the fixed set
`{packaging, emission, supplyChain, regulatory}` (the dispatcher also
defaults to packaging for every unknown analysis type). -/
theorem router_fixed_set_and_default :
    (∀ hint text, routeQuery hint text ∈ validAgentKeys)
    ∧ (∀ hint text, classifyQuery text = none →
        (∀ h, hint = some h → h ∉ validAgentKeys) →
        routeQuery hint text = "packaging")
    ∧ (∀ t, getAgentForAnalysis t ∈ validAgentKeys)
    ∧ (∀ t, t ∉ (["packaging", "emissions", "supply_chain", "regulatory"] : List String) →
        getAgentForAnalysis t = "packaging") := by
  have hclass : ∀ text, (classifyQuery text).getD "packaging" ∈ validAgentKeys := by
    intro text
    unfold classifyQuery
    dsimp only
    split_ifs <;> simp [validAgentKeys]
  refine ⟨?_, ?_, ?_, ?_⟩
  · intro hint text
    cases hint with
    | none => exact hclass text
    | some h =>
      by_cases hh : h ∈ validAgentKeys
      · simp [routeQuery, hh]
      · simpa [routeQuery, hh] using hclass text
  · intro hint text hcl hh
    cases hint with
    | none => simp [routeQuery, hcl]
    | some h => simp [routeQuery, hh h rfl, hcl]
  · intro t
    unfold getAgentForAnalysis
    split_ifs <;> simp [validAgentKeys]
  · intro t ht
    unfold getAgentForAnalysis
    split_ifs with h1 h2 h3 h4
    · subst h1; simp at ht
    · subst h2; simp at ht
    · subst h3; simp at ht
    · subst h4; simp at ht
    · rfl

/-- Witness for C2 at the unclassifiable query of the repository's own
router test and at the unknown analysis type `general`. -/
theorem router_fixed_set_and_default_witness :
    classifyQuery "General sustainability question" = none
    ∧ routeQuery none "General sustainability question" = "packaging"
    ∧ getAgentForAnalysis "general" = "packaging" := by
  have hcl : classifyQuery "General sustainability question" = none := by decide
  refine ⟨hcl, ?_, ?_⟩
  · exact router_fixed_set_and_default.2.1 none _ hcl (fun h hh => nomatch hh)
  · exact router_fixed_set_and_default.2.2.2 "general" (by decide)

/-- C1 (code behaviour at the failing input): for every non-empty
question and valid agent type, when every call to the LLM collaborator
fails, `processQuery` does not return a degraded apologetic response:
it propagates the collaborator error to the caller (both
`BaseAgent.processQuery` and `AgenticRAGSystem.processQuery` rethrow in
their catch blocks), contradicting the specified failure handling. -/
theorem processQuery_propagates_llm_failure (st : RAGState) (q : List Char)
    (key : String) (llm : LLMCollaborator) (e : String)
    (_hq : q ≠ []) (hkey : key ∈ validAgentKeys)
    (hllm : ∀ sp up, llm sp up = Except.error e) :
    processQuery st q key llm = Except.error e := by
  unfold processQuery agentProcessQuery
  rw [if_pos hkey]
  simp only [hllm]

/-- Witness for C1: a concrete non-empty question, the packaging agent,
and an always-failing LLM collaborator. -/
theorem processQuery_propagates_llm_failure_witness :
    ("valid question".toList ≠ ([] : List Char))
    ∧ ("packaging" ∈ validAgentKeys)
    ∧ processQuery ⟨[], []⟩ "valid question".toList "packaging"
        (fun _ _ => Except.error "LLM request failed")
      = Except.error "LLM request failed" :=
  ⟨by decide, by decide,
   processQuery_propagates_llm_failure _ _ _ _ _ (by decide) (by decide)
     (fun _ _ => rfl)⟩

/-- C3 (amended): whenever `queryKnowledge` returns at least one result,
its aggregate confidence equals the mean similarity of the returned
results clamped into `[0.1, 0.95]`, and in particular lies in that
interval; but when the result list is empty (empty corpus) the
confidence is exactly `0`, outside the claimed interval. -/
theorem queryKnowledge_confidence_clamped (st : RAGState) (q : List Char) (k : ℕ) :
    ((queryKnowledge st q k).results ≠ [] →
      (queryKnowledge st q k).confidence
          = min 0.95 (max 0.1
              (((queryKnowledge st q k).results.map (fun r => r.similarity)).sum
                / ((queryKnowledge st q k).results.length : ℝ)))
        ∧ (0.1 : ℝ) ≤ (queryKnowledge st q k).confidence
        ∧ (queryKnowledge st q k).confidence ≤ 0.95)
    ∧ ((queryKnowledge st q k).results = [] →
        (queryKnowledge st q k).confidence = 0) := by
  have hconf : (queryKnowledge st q k).confidence
      = calculateConfidence (queryKnowledge st q k).results := rfl
  constructor
  · intro hne
    have hlen : (queryKnowledge st q k).results.length ≠ 0 := by
      simpa [List.length_eq_zero] using hne
    constructor
    · rw [hconf, calculateConfidence, if_neg hlen]
    · constructor
      · rw [hconf, calculateConfidence, if_neg hlen]
        exact le_min (by norm_num) (le_max_left _ _)
      · rw [hconf, calculateConfidence, if_neg hlen]
        exact min_le_left _ _
  · intro hnil
    rw [hconf, calculateConfidence, hnil]
    simp

/-- Witness for C3 at a one-chunk vector store (non-empty results). -/
theorem queryKnowledge_confidence_clamped_witness :
    (queryKnowledge
        ⟨[], [⟨"packaging".toList, createSimpleEmbedding "packaging".toList,
               "kb"⟩]⟩ "packaging question".toList 5).results ≠ []
    ∧ (0.1 : ℝ) ≤ (queryKnowledge
        ⟨[], [⟨"packaging".toList, createSimpleEmbedding "packaging".toList,
               "kb"⟩]⟩ "packaging question".toList 5).confidence
    ∧ (queryKnowledge
        ⟨[], [⟨"packaging".toList, createSimpleEmbedding "packaging".toList,
               "kb"⟩]⟩ "packaging question".toList 5).confidence ≤ 0.95 := by
  have hne : (queryKnowledge
      ⟨[], [⟨"packaging".toList, createSimpleEmbedding "packaging".toList,
             "kb"⟩]⟩ "packaging question".toList 5).results ≠ [] := by
    simp [queryKnowledge, storeOf, scoreEntries]
  have h := (queryKnowledge_confidence_clamped
    ⟨[], [⟨"packaging".toList, createSimpleEmbedding "packaging".toList, "kb"⟩]⟩
    "packaging question".toList 5).1 hne
  exact ⟨hne, h.2.1, h.2.2⟩

/-- Counterexample for C3 as stated: with an empty corpus (empty
knowledge base and empty vector store) the aggregate confidence of a
retrieval query is exactly `0`, which is outside `[0.1, 0.95]`. -/
theorem queryKnowledge_empty_corpus_confidence_zero :
    (queryKnowledge ⟨[], []⟩ "general question".toList 5).confidence = 0
    ∧ ¬ ((0.1 : ℝ)
        ≤ (queryKnowledge ⟨[], []⟩ "general question".toList 5).confidence) := by
  have h0 : (queryKnowledge ⟨[], []⟩ "general question".toList 5).confidence = 0 := by
    simp [queryKnowledge, storeOf, buildVectorStore, scoreEntries, calculateConfidence]
  exact ⟨h0, by rw [h0]; norm_num⟩

/-- C8 (amended): for a fixed record and a fixed clock every agent
analysis is a pure function of its inputs, and the packaging and
supply-chain analyses depend on the clock only through the excluded
`timestamp` field: with the timestamp normalized, their results are
identical across arbitrary clock values.  (The emission and regulatory
analyses do read the clock beyond the timestamp; see the
counterexample.) -/
theorem packaging_supplyChain_insights_clock_independent
    (dp : PackagingRecord) (ds : SupplierRecord) (c c' : JsClock) :
    (packagingGenerateInsights dp c).map (fun r => { r with timestamp := 0 })
      = (packagingGenerateInsights dp c').map (fun r => { r with timestamp := 0 })
    ∧ (supplyChainGenerateInsights ds c).map (fun r => { r with timestamp := 0 })
      = (supplyChainGenerateInsights ds c').map (fun r => { r with timestamp := 0 }) := by
  constructor
  · by_cases hv : dp.valid <;> simp [packagingGenerateInsights, hv, Except.map]
  · by_cases hv : ds.valid <;> simp [supplyChainGenerateInsights, hv, Except.map]

/-- Counterexample for C8 as stated: the regulatory agent analysis of
one fixed record differs between two clock values even after the
timestamp field is normalized, because the `daysToDeadline` analysis
value (and with it urgency, insights and KPIs) is computed from
`new Date()`: a hidden input beyond the timestamp field. -/
theorem regulatory_insights_clock_dependent :
    (regulatoryGenerateInsights
        ⟨some "Foo", some "Europe", some "Compliant", some 8640000000,
         none, none, none⟩ ⟨0, 2025⟩).map (fun r => { r with timestamp := 0 })
      ≠ (regulatoryGenerateInsights
        ⟨some "Foo", some "Europe", some "Compliant", some 8640000000,
         none, none, none⟩ ⟨7776000000, 2025⟩).map
          (fun r => { r with timestamp := 0 }) := by
  have dA : calculateDaysToDeadline 8640000000 ⟨0, 2025⟩ = 100 := by
    have h : ((8640000000 - (0 : ℤ) : ℤ) : ℚ) / 86400000 = ((100 : ℤ) : ℚ) := by
      push_cast; norm_num
    show (⌈((8640000000 - (0 : ℤ) : ℤ) : ℚ) / 86400000⌉ : ℤ) = 100
    rw [h, Int.ceil_intCast]
  have dB : calculateDaysToDeadline 8640000000 ⟨7776000000, 2025⟩ = 10 := by
    have h : ((8640000000 - (7776000000 : ℤ) : ℤ) : ℚ) / 86400000 = ((10 : ℤ) : ℚ) := by
      push_cast; norm_num
    show (⌈((8640000000 - (7776000000 : ℤ) : ℤ) : ℚ) / 86400000⌉ : ℤ) = 10
    rw [h, Int.ceil_intCast]
  intro heq
  have key : some (calculateDaysToDeadline 8640000000 ⟨0, 2025⟩)
      = some (calculateDaysToDeadline 8640000000 ⟨7776000000, 2025⟩) :=
    congrArg (fun x : Except String ComplianceInsightResult =>
      match x with
      | Except.ok r => r.complianceAnalysis.daysToDeadline
      | Except.error _ => none) heq
  rw [dA, dB] at key
  simp at key

/-- Sums of squares are non-negative. -/
theorem sumSquares_nonneg (a : List ℝ) : 0 ≤ sumSquares a := by
  unfold sumSquares
  refine List.sum_nonneg ?_
  intro x hx
  obtain ⟨y, _, rfl⟩ := List.mem_map.mp hx
  exact mul_self_nonneg y

/-- The dot product of component-wise non-negative vectors is
non-negative. -/
theorem dotProduct_nonneg :
    ∀ {a b : List ℝ}, (∀ x ∈ a, 0 ≤ x) → (∀ x ∈ b, 0 ≤ x) →
      0 ≤ dotProduct a b := by
  intro a
  induction a with
  | nil => intro b _ _; simp [dotProduct]
  | cons x as ih =>
    intro b ha hb
    cases b with
    | nil => simp [dotProduct]
    | cons y bs =>
      have hstep : dotProduct (x :: as) (y :: bs) = x * y + dotProduct as bs := by
        simp [dotProduct]
      rw [hstep]
      exact add_nonneg
        (mul_nonneg (ha x (by simp)) (hb y (by simp)))
        (ih (fun z hz => ha z (by simp [hz])) (fun z hz => hb z (by simp [hz])))

/-- Cauchy-Schwarz for the list dot product and squared norms of
`cosineSimilarity`. -/
theorem dotProduct_sq_le (a : List ℝ) :
    ∀ b : List ℝ, dotProduct a b ^ 2 ≤ sumSquares a * sumSquares b := by
  induction a with
  | nil => intro b; simp [dotProduct, sumSquares]
  | cons x as ih =>
    intro b
    cases b with
    | nil => simp [dotProduct, sumSquares]
    | cons y bs =>
      have hd : dotProduct (x :: as) (y :: bs) = x * y + dotProduct as bs := by
        simp [dotProduct]
      have hsa : sumSquares (x :: as) = x * x + sumSquares as := by
        simp [sumSquares]
      have hsb : sumSquares (y :: bs) = y * y + sumSquares bs := by
        simp [sumSquares]
      have h1 := ih bs
      have h2 := sumSquares_nonneg as
      have h3 := sumSquares_nonneg bs
      rw [hd, hsa, hsb]
      rcases eq_or_lt_of_le h2 with hSA0 | hSApos
      · have hd0 : dotProduct as bs = 0 := by
          nlinarith [h1, sq_nonneg (dotProduct as bs)]
        rw [hd0, ← hSA0]
        nlinarith [mul_nonneg (mul_self_nonneg x) h3]
      · have h4 : 0 ≤ (x * x + sumSquares as)
            * (sumSquares as * sumSquares bs - dotProduct as bs ^ 2) :=
          mul_nonneg (add_nonneg (mul_self_nonneg x) h2) (by linarith)
        nlinarith [sq_nonneg (y * sumSquares as - x * dotProduct as bs), h4, hSApos]

/-- C5: for every pair of embeddings produced by the bag-of-stems
embedding function (component-wise non-negative count vectors of the
fixed vocabulary length), the cosine similarity lies in `[0, 1]`, and
whenever either vector has zero norm the similarity is exactly `0` (no
division by zero ever occurs). -/
theorem cosineSimilarity_embedding_bounds (s t : List Char) :
    0 ≤ cosineSimilarity (embedReal s) (embedReal t)
    ∧ cosineSimilarity (embedReal s) (embedReal t) ≤ 1
    ∧ ((sumSquares (embedReal s) = 0 ∨ sumSquares (embedReal t) = 0) →
        cosineSimilarity (embedReal s) (embedReal t) = 0) := by
  have hlen : (embedReal s).length = (embedReal t).length := by
    simp only [embedReal, createSimpleEmbedding, List.length_map]
  have hnn : ∀ (u : List Char), ∀ x ∈ embedReal u, (0 : ℝ) ≤ x := by
    intro u x hx
    simp only [embedReal, List.mem_map] at hx
    obtain ⟨n, _, rfl⟩ := hx
    exact Nat.cast_nonneg n
  unfold cosineSimilarity
  rw [if_neg (by simp [hlen])]
  by_cases h0 : sumSquares (embedReal s) = 0 ∨ sumSquares (embedReal t) = 0
  · rw [if_pos h0]
    exact ⟨le_refl 0, by norm_num, fun _ => rfl⟩
  · rw [if_neg h0]
    have hA : sumSquares (embedReal s) ≠ 0 := fun h => h0 (Or.inl h)
    have hB : sumSquares (embedReal t) ≠ 0 := fun h => h0 (Or.inr h)
    have hSA : 0 < sumSquares (embedReal s) :=
      lt_of_le_of_ne (sumSquares_nonneg _) (Ne.symm hA)
    have hSB : 0 < sumSquares (embedReal t) :=
      lt_of_le_of_ne (sumSquares_nonneg _) (Ne.symm hB)
    have hdenom : 0 < Real.sqrt (sumSquares (embedReal s))
        * Real.sqrt (sumSquares (embedReal t)) :=
      mul_pos (Real.sqrt_pos.mpr hSA) (Real.sqrt_pos.mpr hSB)
    have hdot : 0 ≤ dotProduct (embedReal s) (embedReal t) :=
      dotProduct_nonneg (hnn s) (hnn t)
    refine ⟨div_nonneg hdot hdenom.le, ?_, fun hc => absurd hc h0⟩
    rw [div_le_one hdenom, ← Real.sqrt_mul (sumSquares_nonneg _)]
    exact Real.le_sqrt_of_sq_le (dotProduct_sq_le _ _)

/-- Witness for C5 at the zero-norm embedding of the empty text. -/
theorem cosineSimilarity_embedding_bounds_witness :
    (sumSquares (embedReal "".toList) = 0 ∨ sumSquares (embedReal "".toList) = 0)
    ∧ cosineSimilarity (embedReal "".toList) (embedReal "".toList) = 0
    ∧ 0 ≤ cosineSimilarity (embedReal "".toList) (embedReal "".toList) := by
  have hemb : createSimpleEmbedding ([] : List Char) = List.replicate 18 0 := by decide
  have h0 : sumSquares (embedReal "".toList) = 0 := by
    simp [embedReal, sumSquares, hemb, List.map_replicate, List.sum_replicate]
  have h := cosineSimilarity_embedding_bounds "".toList "".toList
  exact ⟨Or.inl h0, h.2.2 (Or.inl h0), h.1⟩

/-- `splitRuns` always yields at least one field (JS `split` never
returns an empty array). -/
theorem splitRuns_ne_nil (sep : Char → Bool) (l : List Char) :
    splitRuns sep l ≠ [] := by
  induction l with
  | nil => simp [splitRuns]
  | cons c cs ih =>
    cases cs with
    | nil =>
      unfold splitRuns
      dsimp only
      split_ifs <;> simp [splitRuns]
    | cons c2 t =>
      unfold splitRuns
      dsimp only
      split_ifs with h1 h2
      · exact ih
      · simp
      · rcases hr : splitRuns sep (c2 :: t) with _ | ⟨s, ss⟩
        · exact absurd hr ih
        · simp

/-- The fields of `splitRuns` joined by one character per boundary never
exceed the input: total field length plus boundary count is bounded by
the input length (each separator run consumes at least one input
character). -/
theorem splitRuns_length_bound (sep : Char → Bool) (l : List Char) :
    ((splitRuns sep l).map List.length).sum + ((splitRuns sep l).length - 1)
      ≤ l.length := by
  induction l with
  | nil => simp [splitRuns]
  | cons c cs ih =>
    have hne := splitRuns_ne_nil sep cs
    cases cs with
    | nil =>
      unfold splitRuns
      dsimp only
      split_ifs <;> simp [splitRuns]
    | cons c2 t =>
      have h1 : 1 ≤ (splitRuns sep (c2 :: t)).length :=
        List.length_pos.mpr hne
      unfold splitRuns
      dsimp only
      split_ifs with hc hc2
      · simp only [List.length_cons] at ih ⊢
        omega
      · simp only [List.map_cons, List.sum_cons, List.length_cons,
          List.length_nil] at ih ⊢
        omega
      · rcases hr : splitRuns sep (c2 :: t) with _ | ⟨s, ss⟩
        · exact absurd hr hne
        · rw [hr] at ih h1
          simp only [List.map_cons, List.sum_cons, List.length_cons] at ih ⊢
          omega

/-- A member that fails the predicate survives `dropWhile`. -/
theorem mem_dropWhile_of_neg {p : Char → Bool} {l : List Char} {c : Char}
    (hc : c ∈ l) (hp : ¬ p c) : c ∈ l.dropWhile p := by
  have hsplit := List.takeWhile_append_dropWhile p l
  rw [← hsplit] at hc
  rcases List.mem_append.mp hc with h | h
  · exact absurd (List.mem_takeWhile_imp h) hp
  · exact h

/-- `trim` erases a string exactly when it is all whitespace. -/
theorem jsTrim_eq_nil_iff (l : List Char) :
    jsTrim l = [] ↔ ∀ c ∈ l, c.isWhitespace := by
  unfold jsTrim
  rw [List.reverse_eq_nil_iff, List.dropWhile_eq_nil_iff]
  constructor
  · intro h c hc
    by_cases hw : c.isWhitespace
    · exact hw
    · exact absurd (h c (List.mem_reverse.mpr (mem_dropWhile_of_neg hc hw))) hw
  · intro h c hc
    exact h c ((List.dropWhile_sublist _).subset (List.mem_reverse.mp hc))

/-- When the whole remaining text fits into the chunk budget, the
`splitText` loop never closes a chunk: it accumulates everything and
emits the single trimmed chunk (or nothing if it trims away). -/
theorem splitTextGo_no_close (chunkSize chunkOverlap : ℕ) :
    ∀ (sents : List (List Char)) (cur : List Char),
      cur.length + (sents.map List.length).sum + sents.length ≤ chunkSize →
      splitTextGo chunkSize chunkOverlap sents cur
        = if jsTrim (accJoin cur sents) = [] then [] else [jsTrim (accJoin cur sents)] := by
  intro sents
  induction sents with
  | nil => intro cur _; rfl
  | cons s rest ih =>
    intro cur hbound
    have hb : cur.length + (s.length + (rest.map List.length).sum)
        + (rest.length + 1) ≤ chunkSize := by
      simpa using hbound
    unfold splitTextGo
    rw [if_neg (by rw [List.length_append]; omega)]
    have hacc : accJoin cur (s :: rest)
        = accJoin (if cur = [] then s else cur ++ ' ' :: s) rest := rfl
    rw [hacc]
    apply ih
    split_ifs with hc
    · omega
    · rw [List.length_append]
      simp only [List.length_cons]
      omega

/-- Characters of the accumulator survive the `splitText` join. -/
theorem mem_accJoin :
    ∀ (sents : List (List Char)) (cur : List Char) (c : Char),
      c ∈ cur → c ∈ accJoin cur sents := by
  intro sents
  induction sents with
  | nil => intro cur c hc; exact hc
  | cons s rest ih =>
    intro cur c hc
    have hcur : cur ≠ [] := List.ne_nil_of_mem hc
    show c ∈ accJoin (if cur = [] then s else cur ++ ' ' :: s) rest
    rw [if_neg hcur]
    exact ih _ c (List.mem_append_left _ hc)

/-- C9 (amended): the chunker returns zero chunks when the text contains
no non-blank sentence; it returns exactly one chunk when the text is
shorter than `chunkSize` and contains at least one non-blank sentence;
and when it closes a chunk it seeds the next one with the overlap words
of the closed chunk joined by spaces followed by the next sentence,
where the overlap words are the last `⌊overlap/10⌋` words — except that
for `⌊overlap/10⌋ = 0` they are all words of the closed chunk (JS
`slice(-0)` is `slice(0)`). -/
theorem splitText_chunking (text : List Char) (chunkSize chunkOverlap : ℕ) :
    ((∀ s ∈ splitRuns isSentenceSep text, jsTrim s = []) →
      splitText text chunkSize chunkOverlap = [])
    ∧ (text.length < chunkSize →
        (∃ s ∈ splitRuns isSentenceSep text, jsTrim s ≠ []) →
        (splitText text chunkSize chunkOverlap).length = 1)
    ∧ (∀ (s : List Char) (rest : List (List Char)) (cur : List Char),
        chunkSize < (cur ++ s).length → cur ≠ [] →
        splitTextGo chunkSize chunkOverlap (s :: rest) cur
            = jsTrim cur ::
              splitTextGo chunkSize chunkOverlap rest
                (joinSpace (overlapWords chunkOverlap cur) ++ ' ' :: s)
          ∧ overlapWords chunkOverlap cur
            = (if chunkOverlap / 10 = 0 then splitChar ' ' cur
               else (splitChar ' ' cur).drop
                 ((splitChar ' ' cur).length - chunkOverlap / 10))) := by
  refine ⟨?_, ?_, ?_⟩
  · intro hall
    have hkept : sentencesOf text = [] := by
      rw [sentencesOf, List.filter_eq_nil_iff]
      intro s hs
      simp [hall s hs]
    rw [splitText, hkept]
    rfl
  · intro hsize ⟨s0, hs0mem, hs0⟩
    have hkept : s0 ∈ sentencesOf text :=
      List.mem_filter.mpr ⟨hs0mem, by simp [List.length_pos, hs0]⟩
    have hne : sentencesOf text ≠ [] := List.ne_nil_of_mem hkept
    have hb := splitRuns_length_bound isSentenceSep text
    have hfil : ((sentencesOf text).map List.length).sum
        ≤ ((splitRuns isSentenceSep text).map List.length).sum :=
      ((List.filter_sublist _).map List.length).sum_le_sum (fun _ _ => Nat.zero_le _)
    have hlenfil : (sentencesOf text).length ≤ (splitRuns isSentenceSep text).length :=
      List.length_filter_le _ _
    have hSRlen : 1 ≤ (splitRuns isSentenceSep text).length :=
      List.length_pos.mpr (splitRuns_ne_nil isSentenceSep text)
    have hbound : ([] : List Char).length
        + ((sentencesOf text).map List.length).sum + (sentencesOf text).length
        ≤ chunkSize := by
      simp only [List.length_nil, Nat.zero_add]
      omega
    rw [splitText, splitTextGo_no_close _ _ _ _ hbound]
    have htrim : jsTrim (accJoin [] (sentencesOf text)) ≠ [] := by
      obtain ⟨k1, krest, hk⟩ := List.exists_cons_of_ne_nil hne
      have hk1 : k1 ∈ sentencesOf text := by
        rw [hk]; exact List.mem_cons_self _ _
      have hk1trim : jsTrim k1 ≠ [] := by
        have hp := (List.mem_filter.mp hk1).2
        simp only [decide_eq_true_eq, List.length_pos] at hp
        exact hp
      obtain ⟨ch, hch, hchw⟩ : ∃ ch ∈ k1, ¬ ch.isWhitespace := by
        by_contra hallws
        push_neg at hallws
        exact hk1trim ((jsTrim_eq_nil_iff k1).mpr (by simpa using hallws))
      have hmem : ch ∈ accJoin [] (sentencesOf text) := by
        rw [hk]
        exact mem_accJoin krest k1 ch hch
      intro hnil
      exact hchw ((jsTrim_eq_nil_iff _).mp hnil ch hmem)
    rw [if_neg htrim]
    rfl
  · intro s rest cur hgt hcur
    constructor
    · show splitTextGo chunkSize chunkOverlap (s :: rest) cur = _
      unfold splitTextGo
      rw [if_pos ⟨hgt, List.length_pos.mpr hcur⟩]
      congr 1
      cases rest <;> rfl
    · rfl

/-- Witness for C9 at a blank text, at a short two-word text, and at the
concrete chunk-closing step of the counterexample. -/
theorem splitText_chunking_witness :
    splitText " . ! ".toList 1000 200 = []
    ∧ (splitText "hello world".toList 1000 200).length = 1
    ∧ splitTextGo 5 0 [" ghi".toList] "abcdef".toList
        = jsTrim "abcdef".toList ::
          splitTextGo 5 0 []
            (joinSpace (overlapWords 0 "abcdef".toList) ++ ' ' :: " ghi".toList) := by
  refine ⟨?_, ?_, ?_⟩
  · exact (splitText_chunking _ 1000 200).1 (by decide)
  · exact (splitText_chunking _ 1000 200).2.1 (by decide)
      ⟨"hello world".toList, by decide, by decide⟩
  · exact ((splitText_chunking [] 5 0).2.2 " ghi".toList [] "abcdef".toList
      (by decide) (by decide)).1

/-- Counterexample for C9 as stated: the empty text is shorter than the
chunk size yet yields zero chunks, not one; and with `chunkOverlap = 0`
a closed chunk seeds the next chunk with all of its words (JS
`slice(-0)`), so `"abcdef. ghi"` at chunk size 5 yields a second chunk
`"abcdef  ghi"` instead of one seeded by zero overlap words. -/
theorem splitText_empty_not_single_chunk :
    (("".toList : List Char).length < 1000 ∧ splitText "".toList 1000 200 = [])
    ∧ splitText "abcdef. ghi".toList 5 0
        = ["abcdef".toList, "abcdef  ghi".toList] :=
  ⟨⟨by decide, by decide⟩, by decide⟩

/-- In a list strictly sorted by a key, any two members with increasing
keys occur as a pair sublist in that order. -/
theorem pair_sublist_of_pairwise_lt {α : Type} {f : α → ℕ} :
    ∀ {l : List α} {x y : α}, l.Pairwise (fun a b => f a < f b) →
      x ∈ l → y ∈ l → f x < f y → List.Sublist [x, y] l := by
  intro l
  induction l with
  | nil => intro x y _ hx _ _; cases hx
  | cons a t ih =>
    intro x y hp hx hy hf
    have ha := List.pairwise_cons.mp hp
    rcases List.mem_cons.mp hx with rfl | hx'
    · rcases List.mem_cons.mp hy with rfl | hy'
      · exact absurd hf (lt_irrefl _)
      · exact List.Sublist.cons₂ x (List.singleton_sublist.mpr hy')
    · rcases List.mem_cons.mp hy with rfl | hy'
      · exact absurd (ha.1 x hx') (by omega)
      · exact (ih ha.2 hx' hy' hf).cons a

/-- In a duplicate-free list, a pair cannot occur as a sublist in both
orders unless its components coincide. -/
theorem sublist_pair_nodup {α : Type} :
    ∀ {m : List α}, m.Nodup → ∀ {a b : α}, List.Sublist [a, b] m → List.Sublist [b, a] m → a = b := by
  intro m
  induction m with
  | nil => intro _ a b h _; simp at h
  | cons c t ih =>
    intro hnd a b h1 h2
    have hc : c ∉ t := (List.nodup_cons.mp hnd).1
    have ht : t.Nodup := (List.nodup_cons.mp hnd).2
    cases h1 with
    | cons _ h1' =>
      cases h2 with
      | cons _ h2' => exact ih ht h1' h2'
      | cons₂ _ h2' =>
        exact absurd (h1'.subset (by simp)) hc
    | cons₂ _ h1' =>
      cases h2 with
      | cons _ h2' =>
        exact absurd (h2'.subset (by simp)) hc
      | cons₂ _ h2' => rfl

/-- Stable descending sort: sorting entries carrying strictly increasing
insertion indices with the similarity comparator of `queryKnowledge`
yields a list pairwise ordered by descending similarity with ties broken
by insertion order. -/
theorem mergeSort_simLE_pairwise (l : List SimilarityEntry)
    (hidx : l.Pairwise (fun a b => a.idx < b.idx)) :
    (l.mergeSort simLE).Pairwise (fun a b =>
      b.similarity < a.similarity
      ∨ (a.similarity = b.similarity ∧ a.idx < b.idx)) := by
  have htrans : ∀ (a b c : SimilarityEntry), simLE a b → simLE b c → simLE a c := by
    intro a b c hab hbc
    simp only [simLE, decide_eq_true_eq] at *
    exact le_trans hbc hab
  have htotal : ∀ (a b : SimilarityEntry), simLE a b || simLE b a := by
    intro a b
    simp only [simLE, Bool.or_eq_true, decide_eq_true_eq]
    exact le_total _ _
  have hsorted := List.sorted_mergeSort htrans htotal l
  have hperm := List.mergeSort_perm l simLE
  have hidxmap : (l.map (fun e => e.idx)).Pairwise (· < ·) :=
    (List.pairwise_map).mpr hidx
  have hnodupl : (l.map (fun e => e.idx)).Nodup :=
    hidxmap.imp (fun h => Nat.ne_of_lt h)
  have hnodup : ((l.mergeSort simLE).map (fun e => e.idx)).Nodup :=
    ((hperm.map (fun e => e.idx)).nodup_iff).mpr hnodupl
  rw [List.pairwise_iff_forall_sublist]
  intro a b hab
  have hle : b.similarity ≤ a.similarity := by
    have h := List.pairwise_iff_forall_sublist.mp hsorted hab
    simpa [simLE] using h
  rcases lt_or_eq_of_le hle with hlt | heq
  · exact Or.inl hlt
  · right
    refine ⟨heq.symm, ?_⟩
    have hne : a.idx ≠ b.idx := by
      have hsub : List.Sublist [a.idx, b.idx] ((l.mergeSort simLE).map (fun e => e.idx)) := by
        have h := hab.map (fun e => e.idx)
        simpa using h
      exact List.pairwise_iff_forall_sublist.mp hnodup hsub
    rcases Nat.lt_or_ge a.idx b.idx with h | h
    · exact h
    · exfalso
      have hblt : b.idx < a.idx := by omega
      have hamem : a ∈ l := List.mem_mergeSort.mp (hab.subset (by simp))
      have hbmem : b ∈ l := List.mem_mergeSort.mp (hab.subset (by simp))
      have hba_l : List.Sublist [b, a] l := pair_sublist_of_pairwise_lt hidx hbmem hamem hblt
      have hba : List.Sublist [b, a] (l.mergeSort simLE) :=
        List.pair_sublist_mergeSort htrans htotal
          (by simp only [simLE, decide_eq_true_eq]; exact le_of_eq heq.symm) hba_l
      have hnodupSorted : (l.mergeSort simLE).Nodup := hnodup.of_map
      exact hne (congrArg (fun e => e.idx) (sublist_pair_nodup hnodupSorted hab hba))

/-- C4: for every query and every `k`, with the corpus held constant,
the result list of `queryKnowledge` is sorted descending by similarity
with ties broken by original chunk insertion order, contains
`min k (number of stored chunks)` entries, and is a prefix of the result
list for `k + 1`. -/
theorem queryKnowledge_topK_ranking (st : RAGState) (q : List Char) (k : ℕ) :
    (queryKnowledge st q k).results.Pairwise (fun a b =>
        b.similarity < a.similarity
        ∨ (a.similarity = b.similarity ∧ a.idx < b.idx))
    ∧ (queryKnowledge st q k).results.length = min k (storeOf st).length
    ∧ (queryKnowledge st q k).results <+: (queryKnowledge st q (k + 1)).results := by
  have hidx : (scoreEntries (storeOf st) q).Pairwise (fun a b => a.idx < b.idx) := by
    rw [scoreEntries, List.pairwise_map]
    have h1 : ((storeOf st).enum.map Prod.fst).Pairwise (· < ·) := by
      rw [List.enum_map_fst]
      exact List.pairwise_lt_range _
    exact (List.pairwise_map).mp h1
  have hsorted := mergeSort_simLE_pairwise _ hidx
  refine ⟨?_, ?_, ?_⟩
  · exact hsorted.sublist (List.take_sublist _ _)
  · show (List.take k _).length = _
    rw [List.length_take, List.length_mergeSort]
    congr 1
    rw [scoreEntries, List.length_map, List.enum_length]
  · show List.take k _ <+: List.take (k + 1) _
    refine ⟨(List.take (k + 1)
      ((scoreEntries (storeOf st) q).mergeSort simLE)).drop k, ?_⟩
    have h : List.take k (List.take (k + 1)
        ((scoreEntries (storeOf st) q).mergeSort simLE))
        = List.take k ((scoreEntries (storeOf st) q).mergeSort simLE) := by
      rw [List.take_take, Nat.min_eq_left (Nat.le_succ k)]
    rw [← h]
    exact List.take_append_drop _ _
